import Mathlib

/-!
Verification of the loan amortization and valuation engine of the
`reporting-phase2` repository.

The development shallowly embeds the JavaScript source in Lean 4:

* JS numbers are modelled as `ℚ` (the code's arithmetic on the paths we verify
  is rational); where a `NaN`/`null`/`undefined` value can flow into a result
  field we use `Option ℚ` with `none` standing for the non-numeric value, and
  arithmetic that propagates it (as JS `NaN` does).
* Calendar dates are modelled as absolute month indices (`year * 12 + month`):
  the schedule builder only ever inspects the `YYYY-MM` part of a date
  (`monthKeyFromISO`, `monthKeyFromDate`, month-anchored `loanDate`s), so this
  loses nothing that the embedded code observes.
* The JS idiom `+x.toFixed(2)` (round to whole cents) is modelled by
  `roundCent`; `x || d` on numbers (where `0`, `null`, `undefined` are falsy)
  by `jsOrNum`, and on strings by `jsOrStr`.
* Code that can throw is embedded in `Except String`.
-/

namespace LoanReport

/-- Round a dollar amount to whole cents: models the JS idiom `+x.toFixed(2)`
used throughout `loanEngine.js` when emitting schedule-row fields. -/
def roundCent (x : ℚ) : ℚ := (round (100 * x) : ℤ) / 100

/-- JS `x || d` for a possibly-missing number: `null`/`undefined` and `0` are
falsy and fall through to the default. -/
def jsOrNum (x : Option ℚ) (d : ℚ) : ℚ :=
  match x with
  | none => d
  | some v => if v = 0 then d else v

/-- JS `x || d` for a possibly-missing string: `null`/`undefined` and the empty
string are falsy and fall through to the default. -/
def jsOrStr (x : Option String) (d : String) : String :=
  match x with
  | none => d
  | some s => if s = "" then d else s

/-- JS truthiness of a possibly-missing string. -/
def jsTruthyStr (x : Option String) : Bool :=
  match x with
  | none => false
  | some s => s ≠ ""

/-- ASCII lower-casing of one character (JS `toLowerCase` on the ASCII
identifiers this code base compares). -/
def lowerChar (c : Char) : Char :=
  if 'A' ≤ c ∧ c ≤ 'Z' then Char.ofNat (c.toNat + 32) else c

/-- ASCII upper-casing of one character (JS `toUpperCase`). -/
def upperChar (c : Char) : Char :=
  if 'a' ≤ c ∧ c ≤ 'z' then Char.ofNat (c.toNat - 32) else c

/-- JS `s.toLowerCase()`. -/
def toLowerStr (s : String) : String := ⟨s.data.map lowerChar⟩

/-- JS `s.toUpperCase()`. -/
def toUpperStr (s : String) : String := ⟨s.data.map upperChar⟩

/-- ASCII whitespace test for `trim`. -/
def isSpaceChar (c : Char) : Bool := c = ' ' ∨ c = '\t' ∨ c = '\n' ∨ c = '\r'

/-- JS `s.trim()`. -/
def trimStr (s : String) : String :=
  ⟨((s.data.dropWhile isSpaceChar).reverse.dropWhile isSpaceChar).reverse⟩

/-- Split a character list on a separator character; an empty input yields
one empty field, as JS `"".split(sep)` does. -/
def splitOnChar (sep : Char) (cs : List Char) : List (List Char) :=
  cs.foldr
    (fun c acc =>
      if c = sep then [] :: acc
      else
        match acc with
        | [] => [[c]]
        | g :: gs => (c :: g) :: gs)
    [[]]

/-- JS `s.split("_")`. -/
def splitUnderscore (s : String) : List String := (splitOnChar '_' s.data).map (⟨·⟩)

/-- JS `s.replace("+", "_")` (the waiver strings hold at most one `+`; JS
`replace` with a string pattern replaces the first occurrence, this maps all
of them). -/
def replacePlus (s : String) : String :=
  ⟨s.data.map (fun c => if c = '+' then '_' else c)⟩

-- ======================================================================
-- Data model (`loanEngine.js` / `loadLoans` normalization)
-- ======================================================================

/-- A loan event (`events` array entries in `loanEngine.js`).  Event dates are
month indices; `deferral.months` is kept integral (the source floors it). -/
inductive LoanEvent
  | prepayment (month : ℤ) (amount : ℚ)
  | deferral (month : ℤ) (months : ℤ)
  | defaultEv (month : ℤ) (recoveryAmount : ℚ)
  deriving DecidableEq, Repr

/-- An ownership lot (`ownershipLots` entries, as normalized by
`roiEngine.js`). -/
structure OwnershipLot where
  user : String
  pct : ℚ
  purchaseMonth : Option ℤ
  deriving DecidableEq, Repr

/-- Platform fee configuration (`GLOBAL_FEE_CONFIG` shape). -/
structure FeeConfig where
  setupFee : ℚ
  monthlyServicingBps : ℚ
  deriving DecidableEq, Repr

/-- A platform user record (`users.js` `USERS` entries). -/
structure UserRec where
  role : String
  feeWaiver : String
  deriving DecidableEq, Repr

/-- A loan, as consumed by `buildAmortSchedule` and `valueLoan`.  `termYears`
and `graceYears` are JS numbers; we keep them as integers (whole years, the
shape `loadLoans` produces), but signed, since `valueLoan`'s validation treats
a non-positive computed term as invalid.  `startMonth` models a valid
`loanStartDate` (an invalid one makes `buildAmortSchedule` throw before any
computation we verify). -/
structure Loan where
  loanId : String
  loanName : String
  borrowerId : String
  principal : ℚ
  nominalRate : ℚ
  termYears : ℤ
  graceYears : ℤ
  startMonth : ℤ
  purchaseMonth : Option ℤ
  events : List LoanEvent
  ownershipLots : List OwnershipLot
  owner : Option String
  user : Option String
  feeWaiver : String
  feeConfig : Option FeeConfig
  deriving DecidableEq, Repr

/-- Global platform environment for the schedule builder: the loaded `USERS`
table and `GLOBAL_FEE_CONFIG`. -/
structure PlatformEnv where
  users : String → Option UserRec
  globalFeeConfig : Option FeeConfig

-- ======================================================================
-- `loanEngine.js` helpers
-- ======================================================================

/-- `resolveUserForLoan` (loanEngine.js): explicit owner, else the single
ownership lot's user, else the legacy `loan.user` field. -/
def resolveUserForLoan (loan : Loan) : Option String :=
  if jsTruthyStr loan.owner then loan.owner
  else if loan.ownershipLots.length = 1 then (loan.ownershipLots.head?).map (·.user)
  else if jsTruthyStr loan.user then loan.user else none

/-- `getUserFeeWaiver` (users.js): `USERS[userId]?.feeWaiver || "none"`. -/
def getUserFeeWaiver (users : String → Option UserRec) (userId : Option String) : String :=
  jsOrStr ((userId.bind users).map (·.feeWaiver)) "none"

/-- Fee-waiver flags resolved by `resolveFeeWaiverFlags` (loanEngine.js). -/
structure WaiverFlags where
  waiveSetup : Bool
  waiveMonthly : Bool
  waiveAll : Bool
  deriving DecidableEq, Repr

/-- `resolveFeeWaiverFlags` (loanEngine.js): loan-level waiver beats
user-level; the effective waiver string is lower-cased, `+` replaced by `_`,
split on `_`, and scanned for the tokens `setup`, `grace`, `all`. -/
def resolveFeeWaiverFlags (users : String → Option UserRec) (userId : Option String)
    (loan : Loan) : WaiverFlags :=
  let userWaiver := jsOrStr (some (getUserFeeWaiver users userId)) "none"
  let loanWaiver := jsOrStr (some loan.feeWaiver) "none"
  let effectiveWaiver := if loanWaiver ≠ "none" then loanWaiver else userWaiver
  let tokens := splitUnderscore (replacePlus (toLowerStr effectiveWaiver))
  { waiveSetup := tokens.contains "setup" || tokens.contains "all"
    waiveMonthly := tokens.contains "grace" || tokens.contains "all"
    waiveAll := tokens.contains "all" }

/-- `getMonthlyServicingRate` (loanEngine.js): `monthlyServicingBps / 10000`. -/
def getMonthlyServicingRate (feeConfig : FeeConfig) : ℚ :=
  jsOrNum (some feeConfig.monthlyServicingBps) 0 / 10000

/-- The `prepayMap` of `buildAmortSchedule`: amounts of all prepayment events
dated in the given month, in event-list order. -/
def prepayAmounts (events : List LoanEvent) (m : ℤ) : List ℚ :=
  events.filterMap fun e =>
    match e with
    | .prepayment em amt => if em = m then some amt else none
    | _ => none

/-- The `deferralStartMap` of `buildAmortSchedule`: total deferral months
starting in the given month (events with non-positive `months` filtered out,
`max 0` applied as in the source). -/
def deferralStart (events : List LoanEvent) (m : ℤ) : ℤ :=
  (events.filterMap fun e =>
    match e with
    | .deferral sm months => if 0 < months ∧ sm = m then some (max 0 months) else none
    | _ => none).sum

/-- The `defaultEvent` scan of `buildAmortSchedule`: first default event in
the list, with its month and `Number(recoveryAmount || 0)`. -/
def findDefaultEvent (events : List LoanEvent) : Option (ℤ × ℚ) :=
  events.findSome? fun e =>
    match e with
    | .defaultEv dm rcv => some (dm, rcv)
    | _ => none

-- ======================================================================
-- Amortization schedule rows and loop (`buildAmortSchedule`)
-- ======================================================================

/-- One schedule row (the objects pushed onto `schedule` in
`buildAmortSchedule`).  `displayDate` is omitted: it always equals the
month-anchored `loanDate`. -/
structure AmortRow where
  monthIndex : ℕ
  loanDate : ℤ
  payment : ℚ
  scheduledPrincipal : ℚ
  prepaymentPrincipal : ℚ
  principalPaid : ℚ
  prepayment : ℚ
  interest : ℚ
  balance : ℚ
  accruedInterest : ℚ
  feeThisMonth : ℚ
  isDeferred : Bool
  deferralIndex : Option ℤ
  deferralRemaining : Option ℤ
  isOwned : Bool
  ownershipDate : Option ℤ
  contractualMonth : ℕ
  defaulted : Bool := false
  isTerminal : Bool := false
  isPaidOff : Bool := false
  recovery : ℚ := 0
  maturityMonth : Option ℤ := none
  cumPrincipal : ℚ := 0
  cumInterest : ℚ := 0
  cumPayment : ℚ := 0
  deriving DecidableEq, Repr

/-- The mutable loop state of `buildAmortSchedule`. -/
structure AmState where
  balance : ℚ
  calendarMonth : ℤ
  deferralRemaining : ℤ
  deferralTotal : ℤ
  deriving DecidableEq, Repr

/-- Per-loan constants of the `buildAmortSchedule` loop. -/
structure AmortCtx where
  monthlyRate : ℚ
  graceMonths : ℤ
  startMonth : ℤ
  purchaseMonth : ℤ
  originalMonthlyPayment : ℚ
  prepayMap : ℤ → List ℚ
  deferralStartMap : ℤ → ℤ
  defaultMonth : Option ℤ
  defaultRecovery : ℚ
  userRole : String
  waiveSetup : Bool
  waiveMonthly : Bool
  setupFee : ℚ
  monthlyServicingRate : ℚ

/-- Apply one month's prepayment events in order against the balance: each
positive amount is applied capped at the remaining balance.  Returns
(total applied, new balance). -/
def applyPrepayments (amts : List ℚ) (balance : ℚ) : ℚ × ℚ :=
  amts.foldl
    (fun acc amt =>
      if 0 < amt then
        let applied := min acc.2 amt
        (acc.1 + applied, acc.2 - applied)
      else acc)
    (0, balance)

/-- Result of one iteration of the schedule loop: either a terminal row
(`break` in the source) or a row plus the next loop state.  Both carry the
exact (un-rounded) balance after the month, which is the loop's own state. -/
inductive AmortStep
  | stop (row : AmortRow) (balanceAfter : ℚ)
  | cont (row : AmortRow) (next : AmState)
  deriving Repr

/-- One iteration of the contractual month loop of `buildAmortSchedule`
(default branch / deferral branch / normal month, in source order).  `i` is
the loop counter; exactly one row is emitted per iteration, so
`monthIndex = i + 1 = contractualMonth`. -/
def amortStep (C : AmortCtx) (i : ℕ) (st : AmState) : AmortStep :=
  let loanDate := st.calendarMonth
  let isOwned : Bool := decide (C.purchaseMonth ≤ loanDate)
  let isFirstOwnedMonth : Bool := isOwned && decide (loanDate = C.purchaseMonth)
  let feeThisMonth :=
    (if isFirstOwnedMonth && (C.userRole = "lender") && !C.waiveSetup then C.setupFee else 0) +
    (if isOwned && !C.waiveMonthly then st.balance * C.monthlyServicingRate else 0)
  if C.defaultMonth = some loanDate then
    let applied := min st.balance C.defaultRecovery
    let bal := st.balance - applied
    .stop
      { monthIndex := i + 1, loanDate
        payment := roundCent applied
        scheduledPrincipal := 0
        prepaymentPrincipal := roundCent applied
        principalPaid := roundCent applied
        prepayment := 0
        interest := 0
        balance := roundCent bal
        accruedInterest := 0
        feeThisMonth := roundCent feeThisMonth
        isDeferred := false
        deferralIndex := none
        deferralRemaining := none
        isOwned
        ownershipDate := if isOwned then some loanDate else none
        contractualMonth := i + 1
        defaulted := true
        isTerminal := true
        recovery := roundCent applied }
      bal
  else
    let dstart := C.deferralStartMap loanDate
    let defRem := if st.deferralRemaining = 0 ∧ dstart ≠ 0 then dstart else st.deferralRemaining
    let defTot := if st.deferralRemaining = 0 ∧ dstart ≠ 0 then dstart else st.deferralTotal
    if 0 < defRem then
      let accruedInterest := st.balance * C.monthlyRate
      let b1 := st.balance + accruedInterest
      let pp := applyPrepayments (C.prepayMap loanDate) b1
      .cont
        { monthIndex := i + 1, loanDate
          payment := 0
          scheduledPrincipal := 0
          prepaymentPrincipal := roundCent pp.1
          principalPaid := roundCent pp.1
          prepayment := roundCent pp.1
          interest := 0
          balance := roundCent pp.2
          accruedInterest := roundCent accruedInterest
          feeThisMonth := roundCent feeThisMonth
          isDeferred := true
          deferralIndex := some (defTot - defRem)
          deferralRemaining := some defRem
          isOwned
          ownershipDate := if isOwned then some loanDate else none
          contractualMonth := i + 1 }
        { balance := pp.2, calendarMonth := loanDate + 1
          deferralRemaining := defRem - 1, deferralTotal := defTot }
    else
      let interest := st.balance * C.monthlyRate
      let monthsSinceLoanStart := loanDate - C.startMonth
      let g : Bool := decide (monthsSinceLoanStart < C.graceMonths)
      let paymentAmt := if g then 0 else C.originalMonthlyPayment
      let scheduledPrincipal :=
        if g then 0 else min (C.originalMonthlyPayment - interest) st.balance
      let b1 :=
        if g then st.balance + interest
        else
          let b := max 0 (st.balance - scheduledPrincipal)
          if b ≤ 1 / 100 then 0 else b
      let pp := applyPrepayments (C.prepayMap loanDate) b1
      let row : AmortRow :=
        { monthIndex := i + 1, loanDate
          payment := roundCent paymentAmt
          scheduledPrincipal := roundCent scheduledPrincipal
          prepaymentPrincipal := roundCent pp.1
          principalPaid := roundCent (scheduledPrincipal + pp.1)
          prepayment := roundCent pp.1
          interest := roundCent interest
          balance := roundCent pp.2
          accruedInterest := 0
          feeThisMonth := roundCent feeThisMonth
          isDeferred := false
          deferralIndex := none
          deferralRemaining := none
          isOwned
          ownershipDate := if isOwned then some loanDate else none
          contractualMonth := i + 1 }
      if pp.2 ≤ 0 then
        .stop { row with isTerminal := true, isPaidOff := true,
                         maturityMonth := some (loanDate + 1) } pp.2
      else
        .cont row
          { balance := pp.2, calendarMonth := loanDate + 1
            deferralRemaining := defRem, deferralTotal := defTot }

/-- The contractual month loop, with `fuel` months remaining (the source loop
runs while `i < totalMonths` and `break`s on terminal rows).  Each list entry
pairs the emitted row with the exact loop balance after that month. -/
def amortLoopAux (C : AmortCtx) : ℕ → ℕ → AmState → List (AmortRow × ℚ)
  | 0, _, _ => []
  | fuel + 1, i, st =>
    match amortStep C i st with
    | .stop row bal => [(row, bal)]
    | .cont row st2 => (row, st2.balance) :: amortLoopAux C fuel (i + 1) st2

/-- Contractual month count: `graceYears*12 + termYears*12`. -/
def loanTotalMonths (loan : Loan) : ℤ := loan.graceYears * 12 + loan.termYears * 12

/-- Initial loop state of `buildAmortSchedule`. -/
def initAmState (loan : Loan) : AmState :=
  { balance := loan.principal, calendarMonth := loan.startMonth
    deferralRemaining := 0, deferralTotal := 0 }

/-- Per-loan loop constants, derived exactly as the prologue of
`buildAmortSchedule` derives them (payment formula, purchase-date fallback to
the start date, user/fee resolution). -/
def buildAmortCtx (P : PlatformEnv) (loan : Loan) : AmortCtx :=
  let monthlyRate := loan.nominalRate / 12
  let repaymentMonths := loan.termYears * 12
  let originalMonthlyPayment :=
    if 0 < repaymentMonths then
      loan.principal * monthlyRate / (1 - (1 + monthlyRate) ^ (-repaymentMonths))
    else 0
  let userId := resolveUserForLoan loan
  let user := (userId.bind P.users).getD { role := "investor", feeWaiver := "none" }
  let flags := resolveFeeWaiverFlags P.users userId loan
  let feeConfig := ((loan.feeConfig).orElse fun _ => P.globalFeeConfig).getD
      { setupFee := 150, monthlyServicingBps := 25 }
  { monthlyRate
    graceMonths := loan.graceYears * 12
    startMonth := loan.startMonth
    purchaseMonth := loan.purchaseMonth.getD loan.startMonth
    originalMonthlyPayment
    prepayMap := prepayAmounts loan.events
    deferralStartMap := deferralStart loan.events
    defaultMonth := (findDefaultEvent loan.events).map Prod.fst
    defaultRecovery := jsOrNum ((findDefaultEvent loan.events).map Prod.snd) 0
    userRole := user.role
    waiveSetup := flags.waiveSetup
    waiveMonthly := flags.waiveMonthly
    setupFee := jsOrNum (some feeConfig.setupFee) 0
    monthlyServicingRate := getMonthlyServicingRate feeConfig }

/-- The schedule loop together with its exact balance trace. -/
def buildAmortTrace (P : PlatformEnv) (loan : Loan) : List (AmortRow × ℚ) :=
  amortLoopAux (buildAmortCtx P loan) (loanTotalMonths loan).toNat 0 (initAmState loan)

/-- The cumulative post-pass of `buildAmortSchedule`: running owned-row
principal/interest/payment totals written (rounded) onto every row. -/
def addCumulatives : List AmortRow → ℚ → ℚ → ℚ → List AmortRow
  | [], _, _, _ => []
  | r :: rs, cp, ci, cpay =>
    let cp2 := if r.isOwned then cp + r.principalPaid else cp
    let ci2 := if r.isOwned then ci + r.interest else ci
    let cpay2 := if r.isOwned then cpay + r.payment else cpay
    { r with cumPrincipal := roundCent cp2, cumInterest := roundCent ci2
             cumPayment := roundCent cpay2 } :: addCumulatives rs cp2 ci2 cpay2

/-- The final fix-up of `buildAmortSchedule`: the last row's `isPaidOff`
flag is overwritten with `balance ≤ 0`. -/
def setLastPaidOff (rows : List AmortRow) : List AmortRow :=
  match rows.getLast? with
  | none => rows
  | some last => rows.dropLast ++ [{ last with isPaidOff := decide (last.balance ≤ 0) }]

/-- `buildAmortSchedule` (loanEngine.js): the contractual month loop followed
by the cumulative pass and the last-row paid-off fix-up. -/
def buildAmortSchedule (P : PlatformEnv) (loan : Loan) : List AmortRow :=
  setLastPaidOff (addCumulatives ((buildAmortTrace P loan).map Prod.fst) 0 0 0)

-- ======================================================================
-- `roiEngine.js`: ownership helpers
-- ======================================================================

/-- `getUserOwnershipPct` (roiEngine.js): case/whitespace-insensitive sum of
lot percentages for the user.  `loadLoans` always normalizes `ownershipLots`
to an array, so the legacy `ownership.allocations` fallback branch of the
source is unreachable for the loans modelled here. -/
def getUserOwnershipPct (loan : Loan) (user : String) : ℚ :=
  let normalizedUser := toLowerStr (trimStr user)
  ((loan.ownershipLots.filter
    (fun l => toLowerStr (trimStr l.user) = normalizedUser)).map (fun l => l.pct)).sum

-- ======================================================================
-- `valuationEngine.js`: risk derivation
-- ======================================================================

/-- JS truthiness of a possibly-missing number (`null`/`undefined`/`0` are
falsy). -/
def jsTruthyNum (x : Option ℚ) : Bool :=
  match x with
  | none => false
  | some v => v ≠ 0

/-- JS `x || d` on integers. -/
def jsOrInt (x : Option ℤ) (d : ℤ) : ℤ :=
  match x with
  | none => d
  | some v => if v = 0 then d else v

/-- JS `parseInt` restricted to the inputs the risk classifier feeds it:
optional sign after trimming, then a leading run of decimal digits. -/
def parseIntJS (s : String) : Option ℤ :=
  let cs := (trimStr s).data
  let signed : Bool × List Char :=
    match cs with
    | '-' :: rest => (true, rest)
    | '+' :: rest => (false, rest)
    | _ => (false, cs)
  let digits := signed.2.takeWhile (·.isDigit)
  if digits.isEmpty then none
  else
    let n : ℕ := digits.foldl (fun acc c => acc * 10 + (c.toNat - '0'.toNat)) 0
    some (if signed.1 then -(n : ℤ) else (n : ℤ))

/-- JS `Number(...)` coercion of a string, restricted to the digit strings and
letter codes the year-in-school field carries (empty string is `0`, digit
strings their value, anything else `NaN`, modelled `none`). -/
def jsNumberOfString (s : String) : Option ℚ :=
  let t := trimStr s
  if t = "" then some 0
  else if t.data.all (·.isDigit) then
    some ((t.data.foldl (fun acc c => acc * 10 + (c.toNat - '0'.toNat)) 0 : ℕ) : ℚ)
  else none

/-- `deriveFicoBand` (valuationEngine.js). -/
def deriveFicoBand (fico : Option ℚ) : String :=
  match fico with
  | none => "UNKNOWN"
  | some f =>
    if f ≥ 760 then "A"
    else if f ≥ 720 then "B"
    else if f ≥ 680 then "C"
    else if f ≥ 640 then "D"
    else "E"

/-- A borrower record (`borrowers.json` entries plus valuation overrides).
`yearInSchool` may be a letter code or a number in the data, hence the sum
type; `none` models a missing field. -/
structure Borrower where
  borrowerId : String
  borrowerFico : Option ℚ
  cosignerFico : Option ℚ
  yearInSchool : Option (Sum String ℤ)
  isGraduateStudent : Bool
  school : Option String
  opeid : Option String
  degreeType : Option String
  deriving DecidableEq, Repr

/-- `deriveRiskTier` (valuationEngine.js).  The source also takes an
`assumptions` argument it never reads; missing FICO values coerce to 0 in the
blend exactly as JS `null`/defaulted values do. -/
def deriveRiskTier (borrower : Borrower) : String :=
  let borrowerFico := borrower.borrowerFico.getD 0
  let cosignerFico := borrower.cosignerFico.getD 0
  let yearInSchool := borrower.yearInSchool.getD (Sum.inl "Z")
  let blendedFico := max borrowerFico (7/10 * borrowerFico + 3/10 * cosignerFico)
  let band := deriveFicoBand (some blendedFico)
  let yearNum :=
    match yearInSchool with
    | Sum.inl s => toUpperStr s
    | Sum.inr n => toString n
  let mapped : Option ℤ :=
    if yearNum = "A" then some 6
    else if yearNum = "B" then some 7
    else if yearNum = "C" then some 8
    else if yearNum = "D" then some 9
    else if yearNum = "Z" then some 1
    else none
  let effectiveYear := jsOrInt mapped (jsOrInt (parseIntJS yearNum) 1)
  let riskTier :=
    if band = "A" ∧ effectiveYear ≥ 3 then "LOW"
    else if band = "A" ∨ band = "B" then "MEDIUM"
    else if band = "C" ∨ band = "D" then "HIGH"
    else "VERY_HIGH"
  if blendedFico ≥ 780 then "LOW"
  else if blendedFico ≥ 720 ∧ riskTier = "HIGH" then "MEDIUM"
  else riskTier

-- ======================================================================
-- `valuationEngine.js`: school tiers
-- ======================================================================

/-- A school reference record (`SCHOOLTIERS` values). -/
structure SchoolRec where
  name : Option String
  grad_rate : Option ℚ
  median_earnings_10yr : Option ℚ
  deriving DecidableEq, Repr

/-- Assumption/profile object (`profile.assumptions`).  Per-tier and per-key
maps are modelled as lookup functions returning `none` for absent keys (the
JS `?.[key] ?? d` idiom). -/
structure Assumptions where
  recoveryRate : String → Option ℚ
  servicingCostBps : ℚ
  prepaymentMultiplier : Option ℚ
  riskPremiumBps : String → Option ℚ
  graduationRateThreshold : ℚ
  earningsThreshold : ℚ
  ficoBorrowerAdjustment : Option ℚ
  ficoCosignerAdjustment : Option ℚ
  baseRiskFreeRate : Option ℚ
  cdrMultiplier : ℚ
  prepaySeasoning : ℚ
  prepaySeasoningYears : Option ℚ
  schoolTierMultiplier : String → Option ℚ
  inflationAssumption : ℚ
  degreeAdjustmentsBps : String → Option ℚ
  schoolAdjustmentsBps : String → Option ℚ
  yearInSchoolAdjustmentsBps : String → Option ℚ
  graduateAdjustmentBps : Option ℚ

/-- A valuation profile (`SYSTEM_PROFILE` / `USER_PROFILE` shape). -/
structure Profile where
  name : String
  assumptions : Assumptions

/-- `computeSchoolTier` (valuationEngine.js): Tier 1 needs both thresholds
met, Tier 2 either at 80%, else Tier 3.  Missing graduation rate coerces to
0, missing earnings to 50000 (the `||` defaults of the source). -/
def computeSchoolTier (schoolData : SchoolRec) (assumptions : Assumptions) : String :=
  let grad := jsOrNum schoolData.grad_rate 0
  let earn := jsOrNum schoolData.median_earnings_10yr 50000
  if grad ≥ assumptions.graduationRateThreshold ∧ earn ≥ assumptions.earningsThreshold then
    "Tier 1"
  else if grad ≥ assumptions.graduationRateThreshold * (8/10) ∨
      earn ≥ assumptions.earningsThreshold * (8/10) then
    "Tier 2"
  else "Tier 3"

/-- Key lookup in the school-tier table (JS object property access). -/
def lookupRec (table : List (String × SchoolRec)) (key : String) : Option SchoolRec :=
  (table.find? (fun p => p.1 = key)).map (·.2)

/-- The null-earnings fallback block of `getSchoolTier`: a record whose
`median_earnings_10yr` is missing gets the default 50000 before tiering. -/
def patchEarnings (d : SchoolRec) : SchoolRec :=
  if d.median_earnings_10yr = none then { d with median_earnings_10yr := some 50000 } else d

/-- `getSchoolTier` (valuationEngine.js).  `tiers = none` models
`SCHOOLTIERS` not loaded.  When the looked-up `opeid` is absent the source
falls back to the table's `DEFAULT` record; if that record is also absent the
subsequent property access throws (`Except.error`).  The `schoolName`
argument is only used for logging in the source. -/
def getSchoolTier (tiers : Option (List (String × SchoolRec))) (_schoolName : String)
    (opeid : Option String) (assumptions : Assumptions) : Except String String :=
  match tiers with
  | none => .ok "Tier 3"
  | some table =>
    if table.isEmpty then .ok "Tier 3"
    else
      let schoolData : Option SchoolRec :=
        if jsTruthyStr opeid then
          let trimmedOpeid := trimStr (opeid.getD "")
          match lookupRec table trimmedOpeid with
          | some d => some d
          | none => lookupRec table "DEFAULT"
        else lookupRec table "DEFAULT"
      match schoolData with
      | none => .error "TypeError: schoolData is undefined"
      | some d => .ok (computeSchoolTier (patchEarnings d) assumptions)

/-- `getSchoolAdjBps` (valuationEngine.js).  Note the source reads
`adjMap[tier] || +100`, so the Tier 2 entry `0` is falsy and the function
actually returns 100 for Tier 2. -/
def getSchoolAdjBps (tier : String) : ℚ :=
  jsOrNum
    (if tier = "Tier 1" then some (-75)
     else if tier = "Tier 2" then some 0
     else if tier = "Tier 3" then some 125
     else if tier = "Unknown" then some 100
     else none) 100

-- ======================================================================
-- `valuationEngine.js`: curve interpolators
-- ======================================================================

/-- Abstract model of the JS expression `Math.pow(x, 1/12)` used by the curve
interpolators.  The floating-point twelfth root is not a rational function,
so the development is parametric in any function having the two order facts
of the true twelfth root that the verified properties use. -/
structure Root12 where
  f : ℚ → ℚ
  pos_le_one : ∀ x : ℚ, 0 < x → x ≤ 1 → 0 < f x ∧ f x ≤ 1
  gt_one : ∀ x : ℚ, 1 < x → 1 < f x

/-- The identity function is one admissible twelfth-root model; it is used to
evaluate the interpolators on concrete inputs. -/
def idRoot12 : Root12 where
  f := id
  pos_le_one := fun _ hx hx1 => ⟨hx, hx1⟩
  gt_one := fun _ hx => hx

/-- De-cumulation step of the default-curve interpolator:
`annualDefaults[i] = cum[i] − cum[i−1]` (with `cum[−1] = 0`). -/
def annualMarginals (cum : List ℚ) : List ℚ := cum.zipWith (· - ·) (0 :: cum)

/-- The per-year monthly hazard rate `1 − Math.pow(1 − annual, 1/12)`. -/
def monthlyHazard (R : Root12) (annual : ℚ) : ℚ := 1 - R.f (1 - annual)

/-- The trailing `while` loop of both interpolators: pad the vector to the
requested length with its last element (`push(v[v.length−1] || 0)`, so an
empty vector pads with 0). -/
def padToLength (l : List ℚ) (n : ℕ) : List ℚ :=
  l ++ List.replicate (n - l.length) (jsOrNum l.getLast? 0)

/-- `interpolateCumulativeDefaultsToMonthlyPD` (valuationEngine.js): for each
curve year, 12 copies of that year's monthly hazard, truncated at
`maxMonths`; then padded to exactly `maxMonths`. -/
def interpolateCumulativeDefaultsToMonthlyPD (R : Root12) (cumDefaultsPct : List ℚ)
    (maxMonths : ℕ) : List ℚ :=
  padToLength
    ((((annualMarginals cumDefaultsPct).map
      (fun a => monthlyHazard R (a / 100))).map (List.replicate 12)).flatten.take maxMonths)
    maxMonths

/-- `interpolateAnnualCPRToMonthlySMM` (valuationEngine.js): the symmetric
algorithm on the (non-cumulated) annual CPR values. -/
def interpolateAnnualCPRToMonthlySMM (R : Root12) (annualCPRPct : List ℚ)
    (maxMonths : ℕ) : List ℚ :=
  padToLength
    (((annualCPRPct.map (fun a => monthlyHazard R (a / 100))).map
      (List.replicate 12)).flatten.take maxMonths)
    maxMonths

-- ======================================================================
-- `valuationEngine.js`: payment math and IRR solver
-- ======================================================================

/-- `computeMonthlyPayment` (valuationEngine.js). -/
def computeMonthlyPayment (principal annualRate : ℚ) (months : ℤ) : ℚ :=
  let r := annualRate / 12
  principal * r / (1 - (1 + r) ^ (-months))

/-- The NPV residual evaluated inside the IRR bisection loop:
`−principal + Σ cashFlows[t]/(1+irr)^t` for `t = 1 .. cashFlows.length − 1`
(index 0 is skipped by the source loop). -/
def irrNPV (cashFlows : List ℚ) (principal irr : ℚ) : ℚ :=
  -principal +
    (((List.range cashFlows.length).drop 1).map
      (fun t => cashFlows.getD t 0 / (1 + irr) ^ t)).sum

/-- The bounded bisection loop of `calculateIRR`.  `Sum.inl` is the in-loop
convergence return (already annualized); `Sum.inr` carries the final midpoint
when the iteration bound is exhausted. -/
def irrIter (cashFlows : List ℚ) (principal : ℚ) : ℕ → ℚ → ℚ → ℚ → ℚ ⊕ ℚ
  | 0, _, _, irr => .inr irr
  | fuel + 1, mn, mx, irr =>
    let npv := irrNPV cashFlows principal irr
    if |npv| < 1 / 1000000 then .inl (irr * 12 * 100)
    else if 0 < npv then irrIter cashFlows principal fuel irr mx ((irr + mx) / 2)
    else irrIter cashFlows principal fuel mn irr ((mn + irr) / 2)

/-- `calculateIRR` (valuationEngine.js): bisection on the monthly rate with
initial bracket `[0, 1]` and initial guess `0.008`, at most 100 iterations.
The post-loop result is annualized (`irr*12*100`) and returned unless it is
non-finite or below −5 (in which case the source returns `NaN`, modelled as
`none`; finiteness always holds over `ℚ`). -/
def calculateIRR (cashFlows : List ℚ) (principal : ℚ) : Option ℚ :=
  match irrIter cashFlows principal 100 0 1 (1 / 125) with
  | .inl v => some v
  | .inr irr =>
    let annualIrr := irr * 12 * 100
    if -5 ≤ annualIrr then some annualIrr else none

-- ======================================================================
-- `valuationEngine.js`: `valueLoan`
-- ======================================================================

/-- Recovery sub-record of a risk curve. -/
structure RecoveryRec where
  grossRecoveryPct : Option ℚ
  recoveryLagMonths : ℕ
  deriving DecidableEq, Repr

/-- A risk curve (`VALUATION_CURVES.riskTiers` values).  `none` sub-records
model absent properties: the in-code fallback curve `{ riskPremiumBps: 550 }`
has no `defaultCurve`/`prepaymentCurve`/`recovery`, and accessing those
throws. -/
structure RiskCurve where
  riskPremiumBps : ℚ
  defaultCurve : Option (List ℚ)
  prepaymentCurve : Option (List ℚ)
  recovery : Option RecoveryRec
  deriving DecidableEq, Repr

/-- The risk-component attribution returned by `valueLoan`. -/
structure RiskBreakdown where
  baseRiskBps : ℚ
  degreeAdj : ℚ
  schoolAdj : ℚ
  yearAdj : ℚ
  gradAdj : ℚ
  ficoAdj : ℚ
  totalRiskBps : ℚ
  schoolTier : String
  deriving DecidableEq, Repr

/-- One month of the structured cash-flow schedule (`monthlySchedule` rows). -/
structure CashflowRow where
  month : ℕ
  beginningBalance : ℚ
  interest : ℚ
  scheduledPrincipal : ℚ
  prepayment : ℚ
  defaultAmount : ℚ
  recovery : ℚ
  endingBalance : ℚ
  cashFlow : ℚ
  discountedCashFlow : ℚ
  cumulativeLoss : ℚ
  deriving DecidableEq, Repr

/-- One entry of the observational `projections` array. -/
structure ProjectionRow where
  month : ℕ
  principal : ℚ
  interest : ℚ
  discountedCF : ℚ
  cumExpectedLoss : ℚ
  deriving DecidableEq, Repr

/-- The record returned by `valueLoan`.  `Option ℚ` fields are `none` when
the source stores `NaN`, `null` or leaves the property absent (all three
behave identically in the downstream aggregation arithmetic).  The echoed
`assumptions` property is omitted (it is the caller's own profile object). -/
structure ValuationResult where
  loanId : String
  riskTier : String
  discountRate : Option ℚ
  npv : Option ℚ
  npvRatio : Option ℚ
  expectedLoss : Option ℚ
  expectedLossPct : Option ℚ
  wal : Option ℚ
  irr : Option ℚ
  riskBreakdown : Option RiskBreakdown
  curve : Option RiskCurve
  cashflowSchedule : List CashflowRow
  dateLabels : List ℤ
  projections : List ProjectionRow
  deriving DecidableEq, Repr

/-- The sentinel "unvalued" result of `valueLoan`'s validation failure path:
`riskTier: "UNKNOWN"`, `discountRate: null`, `npv/expectedLoss/wal/irr: NaN`,
`npvRatio: null`, all remaining properties absent. -/
def unvaluedResult (loanId : String) : ValuationResult :=
  { loanId, riskTier := "UNKNOWN", discountRate := none, npv := none, npvRatio := none
    expectedLoss := none, expectedLossPct := none, wal := none, irr := none
    riskBreakdown := none, curve := none, cashflowSchedule := [], dateLabels := []
    projections := [] }

/-- Global state read by `valueLoan`: the loaded curve table (`none` when
`VALUATION_CURVES` is not loaded, which makes `valueLoan` throw), the school
tier table, the platform environment for the schedule builder, and the month
of `new Date()` (`valueLoan` compares month-anchored row dates against it). -/
structure ValuationEnv where
  curves : Option (String → Option RiskCurve)
  schoolTiers : Option (List (String × SchoolRec))
  platform : PlatformEnv
  today : ℤ

/-- The index of the last schedule row satisfying the predicate, modelling
`amort.slice().reverse().find(...)` followed by `amort.indexOf(currentRow)`
(row dates strictly increase, so that row's index is unique). -/
def findLastIdx (rows : List AmortRow) (p : AmortRow → Bool) : Option ℕ :=
  ((rows.enum.filter (fun x => p x.2)).getLast?).map (·.1)

/-- The computed original term of `valueLoan`:
`(Number(termYears) || 10)*12 + (Number(graceYears) || 0)*12` (note the `||`
turns a zero term into 10 years). -/
def originalTermMonthsOf (loan : Loan) : ℤ :=
  (if loan.termYears = 0 then 10 else loan.termYears) * 12 + loan.graceYears * 12

/-- The `5+`/string year key used for the year-in-school adjustment lookup:
`borrower.yearInSchool >= 5 ? "5+" : String(borrower.yearInSchool)` (a
non-numeric string compares as `NaN`, hence false). -/
def yearInSchoolKey (y : Option (Sum String ℤ)) : String :=
  let ge5 : Bool :=
    match y with
    | none => false
    | some (Sum.inl s) =>
      match jsNumberOfString s with
      | some q => decide (5 ≤ q)
      | none => false
    | some (Sum.inr n) => decide (5 ≤ n)
  if ge5 then "5+"
  else
    match y with
    | none => "undefined"
    | some (Sum.inl s) => s
    | some (Sum.inr n) => toString n

/-- Loop-invariant parameters of `valueLoan`'s monthly cash-flow loop. -/
structure CFParams where
  monthlyLoanRate : ℚ
  graceYears : ℤ
  monthlyPayment : ℚ
  monthlySMM : List ℚ
  monthlyPD : List ℚ
  seasoningYears : ℚ
  multiplier : ℚ
  recoveryPct : ℚ
  recoveryLag : ℕ
  termMonths : ℕ
  monthlyDiscountRate : ℚ

/-- The mutable state of `valueLoan`'s monthly cash-flow loop. -/
structure CFState where
  balance : ℚ
  npv : ℚ
  totalDefaults : ℚ
  totalRecoveries : ℚ
  walNumerator : ℚ
  totalCF : ℚ
  cashFlows : List ℚ
  recoveryQueue : ℕ → ℚ
  monthlySchedule : List CashflowRow
  cumulativeLossRunning : ℚ
  projections : List ProjectionRow

/-- One iteration (month `m`, 1-based) of `valueLoan`'s cash-flow loop.  The
source's parallel `effectiveSMM` computation is dead code (only `prepay`,
built from `adjustedSMM`, feeds the cash flows) and is not modelled. -/
def cfStep (A : CFParams) (s : CFState) (m : ℕ) : CFState :=
  if s.balance ≤ 0 then
    { s with
      cashFlows := s.cashFlows ++ [0]
      projections := s.projections ++
        [{ month := m, principal := 0, interest := 0, discountedCF := 0
           cumExpectedLoss := -(s.totalDefaults - s.totalRecoveries) }] }
  else
    let interest := s.balance * A.monthlyLoanRate
    let scheduledPayment0 := if (m : ℤ) ≤ A.graceYears * 12 then interest else A.monthlyPayment
    let scheduledPayment := min scheduledPayment0 (s.balance + interest)
    let scheduledPrincipal := max 0 (scheduledPayment - interest)
    let remainingAfterScheduled := s.balance - scheduledPrincipal
    let baseSMM := jsOrNum (A.monthlySMM.get? (m - 1)) 0
    let seasoningMonths := A.seasoningYears * 12
    let effectiveMultiplier :=
      if seasoningMonths ≤ (m : ℚ) then A.multiplier else A.multiplier * (1 / 10)
    let adjustedSMM := baseSMM * effectiveMultiplier
    let prepay := remainingAfterScheduled * adjustedSMM
    let totalPrincipalThisMonth := scheduledPrincipal + prepay
    let remaining1 := remainingAfterScheduled - prepay
    let defaultAmt := remaining1 * (A.monthlyPD.getD (m - 1) 0)
    let remaining := remaining1 - defaultAmt
    let recMonth := m + A.recoveryLag
    let queueLen := A.termMonths + A.recoveryLag + 1
    let lateNPV :=
      if recMonth < queueLen then 0
      else defaultAmt * A.recoveryPct / (1 + A.monthlyDiscountRate) ^ recMonth
    let lateRecoveries := if recMonth < queueLen then 0 else defaultAmt * A.recoveryPct
    let queue2 :=
      if recMonth < queueLen then
        fun j => if j = recMonth then s.recoveryQueue j + defaultAmt * A.recoveryPct
                 else s.recoveryQueue j
      else s.recoveryQueue
    let recoveryThisMonth := queue2 m
    let cashFlow := interest + totalPrincipalThisMonth + recoveryThisMonth
    let discountedCF := cashFlow / (1 + A.monthlyDiscountRate) ^ m
    { balance := remaining
      npv := s.npv + lateNPV + discountedCF
      totalDefaults := s.totalDefaults + defaultAmt
      totalRecoveries := s.totalRecoveries + lateRecoveries + recoveryThisMonth
      walNumerator := s.walNumerator + discountedCF * m
      totalCF := s.totalCF + discountedCF
      cashFlows := s.cashFlows ++ [cashFlow]
      recoveryQueue := queue2
      monthlySchedule := s.monthlySchedule ++
        [{ month := m, beginningBalance := s.balance, interest, scheduledPrincipal
           prepayment := prepay, defaultAmount := defaultAmt, recovery := recoveryThisMonth
           endingBalance := remaining, cashFlow, discountedCashFlow := discountedCF
           cumulativeLoss := s.cumulativeLossRunning + (defaultAmt - recoveryThisMonth) }]
      cumulativeLossRunning := s.cumulativeLossRunning + (defaultAmt - recoveryThisMonth)
      projections := s.projections ++
        [{ month := m, principal := totalPrincipalThisMonth + recoveryThisMonth
           interest, discountedCF
           cumExpectedLoss := -((s.totalDefaults + defaultAmt) -
             (s.totalRecoveries + lateRecoveries + recoveryThisMonth)) }] }

/-- The in-code fallback curve `{ riskPremiumBps: 550 }` used when the tier
has no entry in `VALUATION_CURVES.riskTiers`. -/
def fallbackCurve : RiskCurve :=
  { riskPremiumBps := 550, defaultCurve := none, prepaymentCurve := none, recovery := none }

/-- The schedule-row index `valueLoan` prices from: the last row dated on or
before today. -/
def currentRowIndex (E : ValuationEnv) (loan : Loan) : Option ℕ :=
  findLastIdx (buildAmortSchedule E.platform loan) (fun r => decide (r.loanDate ≤ E.today))

/-- The current outstanding balance `valueLoan` re-derives from the schedule:
the current row's balance (the original principal when no row is dated on or
before today), clamped to 0 when negative or non-finite. -/
def currentBalanceOf (E : ValuationEnv) (loan : Loan) : ℚ :=
  let amort := buildAmortSchedule E.platform loan
  let currentBalance0 : ℚ :=
    match (currentRowIndex E loan).bind (amort.get? ·) with
    | some row => row.balance
    | none => loan.principal
  if currentBalance0 < 0 then 0 else currentBalance0

/-- The remaining month count after the current row
(`amort.length − currentIndex − 1`, or the original term when today precedes
the whole schedule). -/
def remainingTermMonths (E : ValuationEnv) (loan : Loan) : ℤ :=
  match currentRowIndex E loan with
  | some j => ((buildAmortSchedule E.platform loan).length : ℤ) - j - 1
  | none => originalTermMonthsOf loan

/-- The zero-valuation result returned when the current balance is already
zero or no term remains: `discountRate` is the raw `riskFreeRate` argument,
`riskBreakdown` the empty object and `curve` null. -/
def zeroValuation (loan : Loan) (borrower : Borrower) (riskFreeRate : ℚ) : ValuationResult :=
  { loanId := loan.loanId
    riskTier := deriveRiskTier borrower
    discountRate := some riskFreeRate
    npv := some 0, npvRatio := some 0, expectedLoss := some 0
    expectedLossPct := none
    wal := some 0, irr := some 0
    riskBreakdown := none
    curve := none, cashflowSchedule := [], dateLabels := [], projections := [] }

/-- The risk-premium attribution block of `valueLoan` (its lines computing
`ficoAdj` through `totalRiskBps`), returned exactly as the source's
`riskBreakdown` object.  `totalRiskBps` uses the profile-overridable tier
premium (`userRiskBps`), while the reported `baseRiskBps` echoes the curve's
own premium, as in the source.  School-tier lookup may throw. -/
def riskBreakdownOf (E : ValuationEnv) (assumptions : Assumptions) (borrower : Borrower)
    (riskTier : String) (curve : RiskCurve) : Except String RiskBreakdown :=
  let userRiskBps := (assumptions.riskPremiumBps riskTier).getD curve.riskPremiumBps
  let ficoAdj :=
    (if jsTruthyNum borrower.borrowerFico then
      assumptions.ficoBorrowerAdjustment.getD 50 else 0) +
    (if jsTruthyNum borrower.cosignerFico then
      assumptions.ficoCosignerAdjustment.getD 25 else 0)
  let normalizedDegree :=
    if borrower.degreeType = some "STEM" then "STEM"
    else if borrower.degreeType = some "Business" then "BUSINESS"
    else if borrower.degreeType = some "Liberal Arts" then "LIBERAL_ARTS"
    else if borrower.degreeType = some "Professional (e.g. Nursing, Law)" then "PROFESSIONAL"
    else if borrower.degreeType = some "Other" then "OTHER"
    else "UNKNOWN"
  let degreeAdj := (assumptions.degreeAdjustmentsBps normalizedDegree).getD 0
  match getSchoolTier E.schoolTiers (borrower.school.getD "Unknown") borrower.opeid
      assumptions with
  | .error e => .error e
  | .ok schoolTier =>
    let schoolAdj :=
      (assumptions.schoolAdjustmentsBps schoolTier).getD (getSchoolAdjBps schoolTier)
    let yearKey := yearInSchoolKey borrower.yearInSchool
    let yearAdj := (assumptions.yearInSchoolAdjustmentsBps yearKey).getD 0
    let gradAdj :=
      if borrower.isGraduateStudent then assumptions.graduateAdjustmentBps.getD 0 else 0
    .ok { baseRiskBps := curve.riskPremiumBps, degreeAdj, schoolAdj, yearAdj, gradAdj, ficoAdj
          totalRiskBps := userRiskBps + degreeAdj + schoolAdj + yearAdj + gradAdj + ficoAdj
          schoolTier }

/-- The pricing path of `valueLoan` (everything after validation, the curve
presence check and the zero-balance early return). -/
def valueLoanPriced (R : Root12) (E : ValuationEnv) (riskTiers : String → Option RiskCurve)
    (loan : Loan) (borrower : Borrower) (riskFreeRate : ℚ) (profile : Profile) :
    Except String ValuationResult :=
  let assumptions := profile.assumptions
  let rate := loan.nominalRate
  let monthlyLoanRate := rate / 12
  let amort := buildAmortSchedule E.platform loan
  let currentIdx := currentRowIndex E loan
  let currentBalance := currentBalanceOf E loan
  let termMonthsZ : ℤ := max (remainingTermMonths E loan) 1
  let principal := currentBalance
  let monthlyPayment := computeMonthlyPayment principal rate termMonthsZ
  let riskTier := jsOrStr (some (deriveRiskTier borrower)) "HIGH"
  let curve := (riskTiers riskTier).getD fallbackCurve
  let userRecoveryPct :=
    (((assumptions.recoveryRate riskTier).orElse
      (fun _ => curve.recovery.bind (·.grossRecoveryPct))).getD 20) / 100
  let userPrepayMultiplier := assumptions.prepaymentMultiplier.getD 1
  match riskBreakdownOf E assumptions borrower riskTier curve with
  | .error e => .error e
  | .ok bd =>
    let effectiveRiskFreeRate :=
      (assumptions.baseRiskFreeRate.getD (riskFreeRate * 100)) / 100
    let cappedRiskBps := min bd.totalRiskBps 500
    let discountRate := effectiveRiskFreeRate + cappedRiskBps / 10000
    let monthlyDiscountRate := discountRate / 12
    match curve.defaultCurve with
    | none => .error "TypeError: cannot read cumulativeDefaultPct of undefined"
    | some cumDef =>
      match curve.prepaymentCurve with
      | none => .error "TypeError: cannot read valuesPct of undefined"
      | some cprVals =>
        match curve.recovery with
        | none => .error "TypeError: cannot read recoveryLagMonths of undefined"
        | some recInfo =>
          let termMonthsN := termMonthsZ.toNat
          let monthlyPD := interpolateCumulativeDefaultsToMonthlyPD R cumDef termMonthsN
          let monthlySMM := interpolateAnnualCPRToMonthlySMM R cprVals termMonthsN
          let recoveryLag := recInfo.recoveryLagMonths
          let startMonth :=
            match currentIdx.bind (amort.get? ·) with
            | some row => row.loanDate
            | none => loan.startMonth
          let dateLabels :=
            (List.range' 1 termMonthsN).map (fun m => startMonth + ((m : ℤ) - 1))
          let A : CFParams :=
            { monthlyLoanRate
              graceYears := loan.graceYears
              monthlyPayment
              monthlySMM, monthlyPD
              seasoningYears := assumptions.prepaySeasoningYears.getD (5/2)
              multiplier := userPrepayMultiplier
              recoveryPct := userRecoveryPct
              recoveryLag
              termMonths := termMonthsN
              monthlyDiscountRate }
          let s0 : CFState :=
            { balance := principal, npv := 0, totalDefaults := 0, totalRecoveries := 0
              walNumerator := 0, totalCF := 0, cashFlows := [-principal]
              recoveryQueue := fun _ => 0, monthlySchedule := []
              cumulativeLossRunning := 0, projections := [] }
          let fin := (List.range' 1 termMonthsN).foldl (cfStep A) s0
          let npvRatio := if 0 < principal then fin.npv / principal - 1 else 0
          let expectedLoss0 :=
            if 0 < principal then (fin.totalDefaults - fin.totalRecoveries) / principal
            else 0
          let expectedLoss := max 0 expectedLoss0
          let wal := if 0 < fin.totalCF then fin.walNumerator / fin.totalCF / 12 else 0
          let irrPrincipal := if 0 < currentBalance then currentBalance else loan.principal
          let irr := calculateIRR fin.cashFlows irrPrincipal
          let safeIrr := irr.getD 0
          .ok { loanId := loan.loanId, riskTier
                discountRate := some discountRate
                npv := some fin.npv
                npvRatio := some npvRatio
                expectedLoss := some expectedLoss
                expectedLossPct := some expectedLoss
                wal := some wal
                irr := some safeIrr
                riskBreakdown := some bd
                curve := riskTiers riskTier
                cashflowSchedule := fin.monthlySchedule
                dateLabels
                projections := fin.projections }

/-- `valueLoan` (valuationEngine.js), with the ambient globals (`curves`,
`SCHOOLTIERS`, `USERS`, fee config) and "today" passed explicitly, and the
floating-point twelfth root abstracted as `R`.  The source's default
`riskFreeRate` is `0.04`; an invalid `profile` argument falls back to
`SYSTEM_PROFILE` before this logic runs, so `profile` is modelled as always
present.  Throwing paths return `Except.error`. -/
def valueLoan (R : Root12) (E : ValuationEnv) (loan : Loan) (borrower : Borrower)
    (riskFreeRate : ℚ) (profile : Profile) : Except String ValuationResult :=
  if loan.principal ≤ 0 ∨ loan.nominalRate ≤ 0 ∨ originalTermMonthsOf loan ≤ 0 then
    .ok (unvaluedResult loan.loanId)
  else
    match E.curves with
    | none => .error "Valuation curves not loaded"
    | some riskTiers =>
      if currentBalanceOf E loan ≤ 0 ∨ max (remainingTermMonths E loan) 1 ≤ 0 then
        .ok (zeroValuation loan borrower riskFreeRate)
      else valueLoanPriced R E riskTiers loan borrower riskFreeRate profile

-- ======================================================================
-- `valuationEngine.js`: `computePortfolioValuation`
-- ======================================================================

/-- `NaN`-propagating arithmetic on JS numbers that may be `NaN`/`undefined`
(the aggregation sums of `computePortfolioValuation`). -/
def jAdd (a b : Option ℚ) : Option ℚ :=
  match a, b with
  | some x, some y => some (x + y)
  | _, _ => none

/-- `NaN`-propagating multiplication. -/
def jMul (a b : Option ℚ) : Option ℚ :=
  match a, b with
  | some x, some y => some (x * y)
  | _, _ => none

/-- `NaN`-propagating subtraction. -/
def jSub (a b : Option ℚ) : Option ℚ :=
  match a, b with
  | some x, some y => some (x - y)
  | _, _ => none

/-- `NaN`-propagating division (all uses are guarded by a positive
denominator, so rational division is faithful). -/
def jDiv (a b : Option ℚ) : Option ℚ :=
  match a, b with
  | some x, some y => some (x / y)
  | _, _ => none

/-- The empty borrower `{}` used when `getBorrowerById` finds nothing. -/
def emptyBorrower : Borrower :=
  { borrowerId := "", borrowerFico := none, cosignerFico := none, yearInSchool := none
    isGraduateStudent := false, school := none, opeid := none, degreeType := none }

/-- `getEffectiveBorrower` (valuationOverrides.js): the loan's override, if
any, otherwise the system borrower.  Overrides are modelled as full borrower
records: the JS `{ ...system, ...override }` spread of a partial override is
the full record that agrees with the system borrower on absent fields. -/
def getEffectiveBorrower (overrides : String → Option Borrower) (loan : Loan)
    (systemBorrower : Borrower) : Borrower :=
  match overrides loan.loanId with
  | some o => o
  | none => systemBorrower

/-- Environment for the portfolio aggregation: valuation globals plus the
loaded borrower table (`getBorrowerById`) and valuation overrides. -/
structure PortfolioEnv where
  val : ValuationEnv
  borrowers : String → Option Borrower
  overrides : String → Option Borrower

/-- One per-loan entry of `computePortfolioValuation`'s `valuedLoans`. -/
structure ValuedLoan where
  loan : Loan
  effectiveBorrower : Borrower
  valuation : ValuationResult
  amort : List AmortRow
  currentBalance : ℚ
  userPct : ℚ
  marketPct : ℚ
  ownershipPct : ℚ
  displayPrincipal : ℚ
  displayNPV : Option ℚ
  displayExpLoss : Option ℚ
  displayExpLossPct : Option ℚ
  displayWAL : Option ℚ
  displayIRR : Option ℚ

/-- The portfolio KPI record returned by `computePortfolioValuation`. -/
structure PortfolioResult where
  valuedLoans : List ValuedLoan
  totalPrincipal : ℚ
  totalNPV : Option ℚ
  totalNPVPercent : Option ℚ
  totalExpLoss : Option ℚ
  totalWAL : Option ℚ
  totalIRR : Option ℚ

/-- The per-loan body of `computePortfolioValuation`'s `map` (borrower
resolution, the in-place `nominalRate` fallback mutation — both `valueLoan`
and the subsequent `buildAmortSchedule` see the mutated loan — valuation,
current balance, and prorated display values).  The source line
`displayExpLossPct: valuation.expectedLossPct ?? 0,` inside the function body
is a labelled expression statement with no effect and is not modelled. -/
def portfolioLoanEntry (R : Root12) (E : PortfolioEnv) (currentUser ownershipMode : String)
    (profile : Profile) (riskFreeRate : ℚ) (loan : Loan) : Except String ValuedLoan :=
  let systemBorrower := (E.borrowers loan.borrowerId).getD emptyBorrower
  let effectiveBorrower := getEffectiveBorrower E.overrides loan systemBorrower
  let loan2 := { loan with nominalRate := if loan.nominalRate ≤ 0 then 8/100 else loan.nominalRate }
  match valueLoan R E.val loan2 effectiveBorrower riskFreeRate profile with
  | .error e => .error e
  | .ok valuation =>
    let amort := buildAmortSchedule E.val.platform loan2
    let currentIdx := findLastIdx amort (fun r => decide (r.loanDate ≤ E.val.today))
    let currentBalance :=
      match currentIdx.bind (amort.get? ·) with
      | some row => row.balance
      | none => loan2.principal
    let userPct := getUserOwnershipPct loan2 currentUser
    let marketPct := getUserOwnershipPct loan2 "Market"
    let ownershipPct :=
      if ownershipMode = "portfolio" then userPct
      else if ownershipMode = "market" then marketPct
      else if ownershipMode = "all" then (if 0 < userPct then userPct else marketPct)
      else 1
    .ok { loan := loan2, effectiveBorrower, valuation, amort, currentBalance
          userPct, marketPct, ownershipPct
          displayPrincipal := loan2.principal * ownershipPct
          displayNPV := jMul valuation.npv (some ownershipPct)
          displayExpLoss := jMul valuation.expectedLoss (some ownershipPct)
          displayExpLossPct := valuation.expectedLossPct
          displayWAL := valuation.wal
          displayIRR := valuation.irr }

/-- `computePortfolioValuation` (valuationEngine.js): ownership-mode filter,
per-loan valuation, and principal-weighted portfolio KPIs.  The running sums
use `NaN`-propagating arithmetic exactly as JS `+=` does. -/
def computePortfolioValuation (R : Root12) (E : PortfolioEnv) (loans : List Loan)
    (currentUser : String) (ownershipMode : String) (activeProfile : Profile)
    (riskFreeRate : ℚ) : Except String PortfolioResult :=
  let filteredLoans := loans.filter fun loan =>
    let userPct := getUserOwnershipPct loan currentUser
    let marketPct := getUserOwnershipPct loan "Market"
    if ownershipMode = "portfolio" then decide (0 < userPct)
    else if ownershipMode = "market" then decide (0 < marketPct)
    else if ownershipMode = "all" then decide (0 < userPct) || decide (0 < marketPct)
    else false
  match filteredLoans.mapM
      (portfolioLoanEntry R E currentUser ownershipMode activeProfile riskFreeRate) with
  | .error e => .error e
  | .ok valuedLoans =>
    let totalPrincipal := (valuedLoans.map (·.displayPrincipal)).sum
    let totalNPV := valuedLoans.foldl (fun acc v => jAdd acc v.displayNPV) (some 0)
    let totalExpectedLossWeighted := valuedLoans.foldl
      (fun acc v => jAdd acc (jMul v.valuation.expectedLossPct (some v.displayPrincipal)))
      (some 0)
    let totalWALWeighted := valuedLoans.foldl
      (fun acc v => jAdd acc (jMul v.valuation.wal (some v.displayPrincipal))) (some 0)
    let totalIRRWeighted := valuedLoans.foldl
      (fun acc v => jAdd acc (jMul v.valuation.irr (some v.displayPrincipal))) (some 0)
    let totalPrincipalForWeights := (valuedLoans.map (·.displayPrincipal)).sum
    .ok { valuedLoans
          totalPrincipal
          totalNPV
          totalNPVPercent :=
            if 0 < totalPrincipal then
              jMul (jSub (jDiv totalNPV (some totalPrincipal)) (some 1)) (some 100)
            else some 0
          totalExpLoss :=
            if 0 < totalPrincipalForWeights then
              jMul (jDiv totalExpectedLossWeighted (some totalPrincipalForWeights)) (some 100)
            else some 0
          totalWAL :=
            if 0 < totalPrincipalForWeights then
              jDiv totalWALWeighted (some totalPrincipalForWeights)
            else some 0
          totalIRR :=
            if 0 < totalPrincipalForWeights then
              jDiv totalIRRWeighted (some totalPrincipalForWeights)
            else some 0 }

-- ======================================================================
-- Concrete fixtures (system-default assumptions, sample curves and loans)
-- ======================================================================

/-- An empty platform environment (no users loaded, fee config defaulted). -/
def testPlatform : PlatformEnv := { users := fun _ => none, globalFeeConfig := none }

/-- The `SYSTEM_PROFILE` default assumptions of valuationEngine.js. -/
def sampleAssumptions : Assumptions :=
  { recoveryRate := fun t =>
      if t = "LOW" then some 30 else if t = "MEDIUM" then some 22
      else if t = "HIGH" then some 15 else if t = "VERY_HIGH" then some 10 else none
    servicingCostBps := 50
    prepaymentMultiplier := some 1
    riskPremiumBps := fun t =>
      if t = "LOW" then some 250 else if t = "MEDIUM" then some 350
      else if t = "HIGH" then some 550 else if t = "VERY_HIGH" then some 750 else none
    graduationRateThreshold := 75
    earningsThreshold := 70000
    ficoBorrowerAdjustment := some 50
    ficoCosignerAdjustment := some 25
    baseRiskFreeRate := some (17/4)
    cdrMultiplier := 1
    prepaySeasoning := 5/2
    prepaySeasoningYears := none
    schoolTierMultiplier := fun _ => none
    inflationAssumption := 3
    degreeAdjustmentsBps := fun _ => none
    schoolAdjustmentsBps := fun _ => none
    yearInSchoolAdjustmentsBps := fun _ => none
    graduateAdjustmentBps := some 0 }

/-- A profile carrying the system-default assumptions. -/
def sampleProfile : Profile := { name := "system", assumptions := sampleAssumptions }

/-- A sample MEDIUM-tier risk curve with all sub-records present. -/
def mediumCurve : RiskCurve :=
  { riskPremiumBps := 350
    defaultCurve := some [2, 5, 8, 11, 13]
    prepaymentCurve := some [5, 8, 10, 10, 10]
    recovery := some { grossRecoveryPct := some 22, recoveryLagMonths := 12 } }

/-- A loaded curve table with only the MEDIUM tier populated. -/
def sampleCurves : String → Option RiskCurve :=
  fun t => if t = "MEDIUM" then some mediumCurve else none

/-- A valuation environment with curves loaded, no school-tier table, and
"today" in January 2020 (month index 24240 = 2020·12). -/
def sampleValEnv : ValuationEnv :=
  { curves := some sampleCurves, schoolTiers := none, platform := testPlatform
    today := 24240 }

/-- A portfolio environment over `sampleValEnv` with empty borrower and
override tables. -/
def samplePortEnv : PortfolioEnv :=
  { val := sampleValEnv, borrowers := fun _ => none, overrides := fun _ => none }

/-- A loan fully owned by `jeff` whose principal is 0, so that `valueLoan`
returns the sentinel "unvalued" result. -/
def zeroPrincipalLoan : Loan :=
  { loanId := "L1", loanName := "Loan 1", borrowerId := "B1", principal := 0
    nominalRate := 8/100, termYears := 1, graceYears := 0, startMonth := 24240
    purchaseMonth := some 24240
    events := [], ownershipLots := [{ user := "jeff", pct := 1, purchaseMonth := some 24240 }]
    owner := none, user := none, feeWaiver := "none", feeConfig := none }

/-- A loan with negative principal (invalid basics). -/
def invalidLoan : Loan := { zeroPrincipalLoan with loanId := "L9", principal := -5 }

/-- A 12-month loan at 3.49% on $10,000 with no events: the per-row cent
rounding of `scheduledPrincipal` drifts the field sum to $9,999.98. -/
def loanC4 : Loan :=
  { loanId := "L4", loanName := "Loan 4", borrowerId := "B4", principal := 10000
    nominalRate := 349/10000, termYears := 1, graceYears := 0, startMonth := 24240
    purchaseMonth := none, events := [], ownershipLots := [], owner := none, user := none
    feeWaiver := "none", feeConfig := none }

/-- A loan whose 3-month deferral starts at origination together with a
prepayment that extinguishes the balance in the first deferral month: the
deferral loop keeps emitting rows after the balance reaches 0. -/
def loanC3 : Loan :=
  { loanId := "L3", loanName := "Loan 3", borrowerId := "B3", principal := 1000
    nominalRate := 12/100, termYears := 1, graceYears := 0, startMonth := 24240
    purchaseMonth := none
    events := [.deferral 24240 3, .prepayment 24240 2000]
    ownershipLots := [], owner := none, user := none, feeWaiver := "none", feeConfig := none }

/-- A 2-year loan with a zero-recovery default event dated in its 12th
calendar month and no other events. -/
def loanC7 : Loan :=
  { loanId := "L7", loanName := "Loan 7", borrowerId := "B7", principal := 10000
    nominalRate := 12/100, termYears := 2, graceYears := 0, startMonth := 24240
    purchaseMonth := none
    events := [.defaultEv (24240 + 11) 0]
    ownershipLots := [], owner := none, user := none, feeWaiver := "none", feeConfig := none }

/-- A valid loan fully prepaid in its first month, so that `valueLoan` takes
the zero-balance early return. -/
def loanC6 : Loan :=
  { loanId := "L6", loanName := "Loan 6", borrowerId := "B6", principal := 1000
    nominalRate := 12/100, termYears := 1, graceYears := 0, startMonth := 24240
    purchaseMonth := none
    events := [.prepayment 24240 2000]
    ownershipLots := [], owner := none, user := none, feeWaiver := "none", feeConfig := none }

/-- A borrower with a 730 FICO and no cosigner (MEDIUM tier). -/
def borrowerC6 : Borrower :=
  { borrowerId := "B6", borrowerFico := some 730, cosignerFico := none, yearInSchool := none
    isGraduateStudent := false, school := none, opeid := none, degreeType := none }

/-- A school-tier table whose `DEFAULT` record has a strong graduation rate
and strong earnings. -/
def richDefaultTable : List (String × SchoolRec) :=
  [("DEFAULT", { name := some "Default U", grad_rate := some 100
                 median_earnings_10yr := some 100000 })]

/-- A school-tier table whose `DEFAULT` record carries no data. -/
def weakDefaultTable : List (String × SchoolRec) :=
  [("DEFAULT", { name := none, grad_rate := some 0, median_earnings_10yr := none })]

/-- Decidable equality of `Except` results, for evaluating the embedded
functions on concrete inputs. -/
instance {ε α : Type} [DecidableEq ε] [DecidableEq α] : DecidableEq (Except ε α) :=
  fun a b =>
    match a, b with
    | .ok x, .ok y => if h : x = y then .isTrue (by rw [h]) else .isFalse (by simp [h])
    | .error x, .error y => if h : x = y then .isTrue (by rw [h]) else .isFalse (by simp [h])
    | .ok _, .error _ => .isFalse (by simp)
    | .error _, .ok _ => .isFalse (by simp)

-- ======================================================================
-- IRR solver facts (claims C2 and C10)
-- ======================================================================

/-- Bracket invariant of the bisection: starting from values in `[0, 1]`,
every in-loop return is an annualized rate in `[0, 1200]` and the final
midpoint stays in `[0, 1]`. -/
theorem irrIter_bracket_bounds (cashFlows : List ℚ) (principal : ℚ) :
    ∀ (fuel : ℕ) (mn mx irr : ℚ), 0 ≤ mn → mn ≤ 1 → 0 ≤ mx → mx ≤ 1 → 0 ≤ irr → irr ≤ 1 →
      (∀ v, irrIter cashFlows principal fuel mn mx irr = .inl v → 0 ≤ v ∧ v ≤ 1200) ∧
      (∀ r, irrIter cashFlows principal fuel mn mx irr = .inr r → 0 ≤ r ∧ r ≤ 1) := by
  intro fuel
  induction fuel with
  | zero =>
    intro mn mx irr _ _ _ _ h5 h6
    refine ⟨fun v hv => by simp [irrIter] at hv, fun r hr => ?_⟩
    simp only [irrIter, Sum.inr.injEq] at hr
    exact hr ▸ ⟨h5, h6⟩
  | succ n ih =>
    intro mn mx irr h1 h2 h3 h4 h5 h6
    constructor
    · intro v hv
      rw [irrIter] at hv
      split at hv
      · simp only [Sum.inl.injEq] at hv
        constructor <;> nlinarith
      · split at hv
        · exact (ih irr mx _ h5 h6 h3 h4 (by linarith) (by linarith)).1 v hv
        · exact (ih mn irr _ h1 h2 h5 h6 (by linarith) (by linarith)).1 v hv
    · intro r hr
      rw [irrIter] at hr
      split at hr
      · simp at hr
      · split at hr
        · exact (ih irr mx _ h5 h6 h3 h4 (by linarith) (by linarith)).2 r hr
        · exact (ih mn irr _ h1 h2 h5 h6 (by linarith) (by linarith)).2 r hr

/-- With cash flows `[-100, 0]` the NPV residual is −100 at every iterate. -/
theorem irrNPV_neg100 (irr : ℚ) : irrNPV [-100, 0] 100 irr = -100 := by
  simp [irrNPV, List.range_succ]

/-- On the input `[-100, 0]` / 100 the bisection never converges and keeps
halving the rate. -/
theorem irrIter_halving : ∀ (fuel : ℕ) (mx irr : ℚ),
    irrIter [-100, 0] 100 fuel 0 mx irr = .inr (irr / 2^fuel) := by
  intro fuel
  induction fuel with
  | zero => intro mx irr; simp [irrIter]
  | succ n ih =>
    intro mx irr
    rw [irrIter, irrNPV_neg100]
    rw [if_neg (by norm_num), if_neg (by norm_num)]
    rw [show ((0:ℚ) + irr)/2 = irr/2 by ring, ih]
    congr 1
    rw [pow_succ]
    ring

/-- C2 counterexample: with cash flows `[-100, 0]` and principal 100 the NPV
residual is −100 at every iterate, so the 100 iterations complete without
ever meeting the 1e−6 tolerance (the loop ends in the `Sum.inr`
non-converged state) — yet `calculateIRR` returns a number (the annualized
final midpoint), not the NaN marker. -/
theorem calculateIRR_nonconvergence_counterexample :
    irrIter [-100, 0] 100 100 0 1 (1/125) = Sum.inr (1/(125 * 2^100)) ∧
    calculateIRR [-100, 0] 100 = some (3/(5 * 2^96)) ∧
    (some (3/(5 * 2^96)) : Option ℚ) ≠ none := by
  refine ⟨?_, ?_, by simp⟩
  · rw [irrIter_halving]; norm_num
  · unfold calculateIRR; rw [irrIter_halving]; norm_num

/-- C2 (amended): when the 100 bisection iterations complete without the
absolute NPV residual falling below 1e−6, `calculateIRR` returns the
annualized final bisection midpoint — a number in `[0, 1200]` — rather than
the not-a-number marker. -/
theorem calculateIRR_nonconvergence (cashFlows : List ℚ) (principal irr : ℚ)
    (h : irrIter cashFlows principal 100 0 1 (1/125) = Sum.inr irr) :
    calculateIRR cashFlows principal = some (irr * 12 * 100) ∧
    0 ≤ irr * 12 * 100 ∧ irr * 12 * 100 ≤ 1200 := by
  have hb := (irrIter_bracket_bounds cashFlows principal 100 0 1 (1/125)
    (by norm_num) (by norm_num) (by norm_num) (by norm_num) (by norm_num) (by norm_num)).2
    irr h
  refine ⟨?_, by nlinarith [hb.1, hb.2], by nlinarith [hb.1, hb.2]⟩
  unfold calculateIRR
  rw [h]
  simp only
  rw [if_pos (by nlinarith [hb.1])]

/-- Witness for `calculateIRR_nonconvergence` at the concrete non-convergent
input `[-100, 0]` / 100. -/
theorem calculateIRR_nonconvergence_witness :
    calculateIRR [-100, 0] 100 = some ((1/(125 * 2^100)) * 12 * 100) ∧
    0 ≤ (1/(125 * 2^100) : ℚ) * 12 * 100 ∧ (1/(125 * 2^100) : ℚ) * 12 * 100 ≤ 1200 :=
  calculateIRR_nonconvergence [-100, 0] 100 (1/(125 * 2^100))
    (by rw [irrIter_halving]; norm_num)

/-- C10: whenever `calculateIRR` returns a number, that number lies between 0
and 1200 (annualized percent): the bisection bracket starts at `[0, 1]` and
only narrows, so the solver never returns a negative yield. -/
theorem calculateIRR_range (cashFlows : List ℚ) (principal v : ℚ)
    (h : calculateIRR cashFlows principal = some v) : 0 ≤ v ∧ v ≤ 1200 := by
  have hbounds := irrIter_bracket_bounds cashFlows principal 100 0 1 (1/125)
    (by norm_num) (by norm_num) (by norm_num) (by norm_num) (by norm_num) (by norm_num)
  unfold calculateIRR at h
  rcases hit : irrIter cashFlows principal 100 0 1 (1/125) with w | r
  · rw [hit] at h
    simp only [Option.some.injEq] at h
    exact h ▸ hbounds.1 w hit
  · rw [hit] at h
    simp only at h
    split at h
    · simp only [Option.some.injEq] at h
      have hr := hbounds.2 r hit
      constructor <;> [nlinarith [hr.1]; nlinarith [hr.2]]
    · exact absurd h (by simp)

/-- Witness for `calculateIRR_range` at a concrete returned value. -/
theorem calculateIRR_range_witness :
    0 ≤ (3/(5 * 2^96) : ℚ) ∧ (3/(5 * 2^96) : ℚ) ≤ 1200 :=
  calculateIRR_range [-100, 0] 100 (3/(5 * 2^96))
    (by unfold calculateIRR; rw [irrIter_halving]; norm_num)

-- ======================================================================
-- Sentinel validation (claim C9)
-- ======================================================================

/-- C9: for every loan whose principal is ≤ 0, or whose rate is ≤ 0, or whose
computed term in months is ≤ 0, `valueLoan` returns — rather than throws —
the sentinel "unvalued" result: risk tier `"UNKNOWN"`, `npv` the NaN marker,
`discountRate` null. -/
theorem valueLoan_invalid_sentinel (R : Root12) (E : ValuationEnv) (loan : Loan)
    (borrower : Borrower) (riskFreeRate : ℚ) (profile : Profile)
    (h : loan.principal ≤ 0 ∨ loan.nominalRate ≤ 0 ∨ originalTermMonthsOf loan ≤ 0) :
    valueLoan R E loan borrower riskFreeRate profile = .ok (unvaluedResult loan.loanId) ∧
    (unvaluedResult loan.loanId).riskTier = "UNKNOWN" ∧
    (unvaluedResult loan.loanId).npv = none ∧
    (unvaluedResult loan.loanId).discountRate = none := by
  refine ⟨?_, rfl, rfl, rfl⟩
  unfold valueLoan
  rw [if_pos h]

/-- Witness for `valueLoan_invalid_sentinel` at a concrete loan with negative
principal. -/
theorem valueLoan_invalid_sentinel_witness :
    valueLoan idRoot12 sampleValEnv invalidLoan emptyBorrower (1/25) sampleProfile
      = .ok (unvaluedResult invalidLoan.loanId) ∧
    (unvaluedResult invalidLoan.loanId).riskTier = "UNKNOWN" ∧
    (unvaluedResult invalidLoan.loanId).npv = none ∧
    (unvaluedResult invalidLoan.loanId).discountRate = none :=
  valueLoan_invalid_sentinel idRoot12 sampleValEnv invalidLoan emptyBorrower (1/25)
    sampleProfile (Or.inl (by norm_num [invalidLoan, zeroPrincipalLoan]))

-- ======================================================================
-- School tiers (claim C8)
-- ======================================================================

/-- C8 counterexample: with a loaded table whose `DEFAULT` record has a 100%
graduation rate and $100,000 earnings, an institution identifier absent from
the table resolves through the DEFAULT record to "Tier 1", not "Tier 3". -/
theorem getSchoolTier_unmapped_counterexample :
    getSchoolTier (some richDefaultTable) "Some School" (some "99999") sampleAssumptions
      = .ok "Tier 1" ∧
    getSchoolTier (some richDefaultTable) "Some School" (some "99999") sampleAssumptions
      ≠ .ok "Tier 3" := by
  exact ⟨by decide, by decide⟩

/-- `patchEarnings` does not touch the graduation rate. -/
theorem patchEarnings_grad_rate (d : SchoolRec) : (patchEarnings d).grad_rate = d.grad_rate := by
  unfold patchEarnings
  split <;> rfl

/-- C8 (amended): an unmapped institution resolves to the table's `DEFAULT`
record: "Tier 3" is returned when the tier table is not loaded, and, for a
loaded table, whenever the DEFAULT record's graduation rate and (patched)
earnings sit below 80% of the configured thresholds; a generous DEFAULT
record instead yields the tier it earns. -/
theorem getSchoolTier_unmapped_default (table : List (String × SchoolRec))
    (schoolName opeid : String) (assumptions : Assumptions) (d : SchoolRec)
    (hne : table ≠ []) (hop : opeid ≠ "")
    (hmiss : lookupRec table (trimStr opeid) = none)
    (hdef : lookupRec table "DEFAULT" = some d)
    (hg : 0 ≤ assumptions.graduationRateThreshold)
    (hgrad : jsOrNum d.grad_rate 0 < assumptions.graduationRateThreshold * (8/10))
    (hearn : jsOrNum (patchEarnings d).median_earnings_10yr 50000
      < assumptions.earningsThreshold * (8/10)) :
    getSchoolTier (some table) schoolName (some opeid) assumptions = .ok "Tier 3" ∧
    getSchoolTier none schoolName (some opeid) assumptions = .ok "Tier 3" := by
  refine ⟨?_, rfl⟩
  have hempty : table.isEmpty = false := by
    cases table with
    | nil => exact absurd rfl hne
    | cons a l => rfl
  have htruthy : jsTruthyStr (some opeid) = true := by
    simp [jsTruthyStr, hop]
  simp only [getSchoolTier, hempty, Bool.false_eq_true, if_false, htruthy, if_true,
    Option.getD_some, hmiss, hdef]
  unfold computeSchoolTier
  rw [patchEarnings_grad_rate]
  rw [if_neg (by push_neg; intro hganda; nlinarith), if_neg (by push_neg; exact ⟨by nlinarith, by nlinarith⟩)]

/-- Witness for `getSchoolTier_unmapped_default` at a table whose DEFAULT
record has no data. -/
theorem getSchoolTier_unmapped_default_witness :
    getSchoolTier (some weakDefaultTable) "S" (some "77777") sampleAssumptions = .ok "Tier 3" ∧
    getSchoolTier none "S" (some "77777") sampleAssumptions = .ok "Tier 3" :=
  getSchoolTier_unmapped_default weakDefaultTable "S" "77777" sampleAssumptions
    { name := none, grad_rate := some 0, median_earnings_10yr := none }
    (by simp [weakDefaultTable]) (by simp)
    (by simp [lookupRec, weakDefaultTable, List.find?, show trimStr "77777" = "77777" from rfl])
    (by simp [lookupRec, weakDefaultTable, List.find?])
    (by norm_num [sampleAssumptions])
    (by norm_num [jsOrNum, sampleAssumptions])
    (by norm_num [patchEarnings, jsOrNum, sampleAssumptions])

-- ======================================================================
-- Curve interpolators (claim C5)
-- ======================================================================

/-- C5 counterexample: on the decreasing cumulative curve `[10, 5]` the
second-year marginal is −5%, so the 13th monthly value (index 12) of the PD
vector is negative — outside the claimed `[0, 1)` interval.  (The true
floating-point value is `1 − 1.05^(1/12) < 0`; under the identity model of
the twelfth root it is exactly −1/20.) -/
theorem interpolatePD_negative_counterexample :
    (interpolateCumulativeDefaultsToMonthlyPD idRoot12 [10, 5] 13).getD 12 0 = -1/20 ∧
    ¬ (0 ≤ (-1/20 : ℚ)) := by
  refine ⟨?_, by norm_num⟩
  norm_num [interpolateCumulativeDefaultsToMonthlyPD, annualMarginals, monthlyHazard,
    idRoot12, padToLength, jsOrNum, List.zipWith, List.replicate]

/-- Padding with the last element gives the requested length when the input
is not longer than it. -/
theorem padToLength_length (l : List ℚ) (n : ℕ) (h : l.length ≤ n) :
    (padToLength l n).length = n := by
  simp [padToLength]
  omega

/-- Every element of the padded vector is an element of the input or 0. -/
theorem padToLength_mem (l : List ℚ) (n : ℕ) (P : ℚ → Prop) (h0 : P 0)
    (hl : ∀ y ∈ l, P y) : ∀ x ∈ padToLength l n, P x := by
  intro x hx
  rcases List.mem_append.1 hx with hmem | hrep
  · exact hl x hmem
  · have hx0 := List.eq_of_mem_replicate hrep
    subst hx0
    cases hlast : l.getLast? with
    | none => simpa [jsOrNum, hlast] using h0
    | some a =>
      have ha : a ∈ l := by
        obtain ⟨hn, he⟩ := List.mem_getLast?_eq_getLast (show a ∈ l.getLast? from hlast)
        exact he ▸ List.getLast_mem hn
      simp only [jsOrNum, hlast]
      split
      · exact h0
      · exact hl a ha

/-- The monthly hazard `1 − (1 − a/100)^(1/12)` lies in `[0, 1)` for an
annual percentage `a ∈ [0, 100)`. -/
theorem monthlyHazard_range (R : Root12) (a : ℚ) (h0 : 0 ≤ a) (h1 : a < 100) :
    0 ≤ monthlyHazard R (a/100) ∧ monthlyHazard R (a/100) < 1 := by
  have hx0 : 0 < 1 - a/100 := by linarith
  have hx1 : 1 - a/100 ≤ 1 := by linarith
  obtain ⟨hp, hle⟩ := R.pos_le_one (1 - a/100) hx0 hx1
  unfold monthlyHazard
  constructor <;> linarith

/-- C5 (amended): both interpolators return a vector of exactly the requested
length for every curve and positive month count; and every element lies in
`[0, 1)` provided the annual inputs do — the de-cumulated annual marginals
for the PD interpolator, the annual CPR values themselves for the SMM one —
lie in `[0, 100)` percent.  (Decreasing cumulative curves, i.e. negative
marginals, produce negative entries, as the counterexample shows.) -/
theorem interpolators_length_and_range (R : Root12) (curve : List ℚ) (n : ℕ) (_hn : 0 < n) :
    (interpolateCumulativeDefaultsToMonthlyPD R curve n).length = n ∧
    (interpolateAnnualCPRToMonthlySMM R curve n).length = n ∧
    ((∀ a ∈ annualMarginals curve, 0 ≤ a ∧ a < 100) →
      ∀ x ∈ interpolateCumulativeDefaultsToMonthlyPD R curve n, 0 ≤ x ∧ x < 1) ∧
    ((∀ a ∈ curve, 0 ≤ a ∧ a < 100) →
      ∀ x ∈ interpolateAnnualCPRToMonthlySMM R curve n, 0 ≤ x ∧ x < 1) := by
  refine ⟨?_, ?_, ?_, ?_⟩
  · unfold interpolateCumulativeDefaultsToMonthlyPD
    exact padToLength_length _ _ (by simp)
  · unfold interpolateAnnualCPRToMonthlySMM
    exact padToLength_length _ _ (by simp)
  · intro hcurve
    unfold interpolateCumulativeDefaultsToMonthlyPD
    refine padToLength_mem _ _ (fun x => 0 ≤ x ∧ x < 1) (by norm_num) ?_
    intro y hy
    have hy2 := List.mem_of_mem_take hy
    obtain ⟨ys, hys, hyys⟩ := List.mem_flatten.1 hy2
    obtain ⟨v, hv, hrep⟩ := List.mem_map.1 hys
    obtain ⟨a, ha, hav⟩ := List.mem_map.1 hv
    have := List.eq_of_mem_replicate (hrep ▸ hyys)
    subst this
    rw [← hav]
    obtain ⟨ha0, ha1⟩ := hcurve a ha
    exact monthlyHazard_range R a ha0 ha1
  · intro hcurve
    unfold interpolateAnnualCPRToMonthlySMM
    refine padToLength_mem _ _ (fun x => 0 ≤ x ∧ x < 1) (by norm_num) ?_
    intro y hy
    have hy2 := List.mem_of_mem_take hy
    obtain ⟨ys, hys, hyys⟩ := List.mem_flatten.1 hy2
    obtain ⟨v, hv, hrep⟩ := List.mem_map.1 hys
    obtain ⟨a, ha, hav⟩ := List.mem_map.1 hv
    have := List.eq_of_mem_replicate (hrep ▸ hyys)
    subst this
    rw [← hav]
    obtain ⟨ha0, ha1⟩ := hcurve a ha
    exact monthlyHazard_range R a ha0 ha1

/-- Witness for `interpolators_length_and_range` at the one-year zero curve
and one requested month. -/
theorem interpolators_length_and_range_witness :
    (interpolateCumulativeDefaultsToMonthlyPD idRoot12 [0] 1).length = 1 ∧
    (interpolateAnnualCPRToMonthlySMM idRoot12 [0] 1).length = 1 ∧
    ((∀ a ∈ annualMarginals [0], 0 ≤ a ∧ a < 100) →
      ∀ x ∈ interpolateCumulativeDefaultsToMonthlyPD idRoot12 [0] 1, 0 ≤ x ∧ x < 1) ∧
    ((∀ a ∈ ([0] : List ℚ), 0 ≤ a ∧ a < 100) →
      ∀ x ∈ interpolateAnnualCPRToMonthlySMM idRoot12 [0] 1, 0 ≤ x ∧ x < 1) :=
  interpolators_length_and_range idRoot12 [0] 1 (by decide)

-- ======================================================================
-- Schedule terminal-closure (claim C3)
-- ======================================================================

/-- A fixed probe row for positional access in statements; its values are
irrelevant at in-bounds indices. -/
def probeRow : AmortRow :=
  { monthIndex := 0, loanDate := 0, payment := 0, scheduledPrincipal := 0
    prepaymentPrincipal := 0, principalPaid := 0, prepayment := 0, interest := 0
    balance := 0, accruedInterest := 0, feeThisMonth := 0, isDeferred := false
    deferralIndex := none, deferralRemaining := none, isOwned := false
    ownershipDate := none, contractualMonth := 0 }

/-- Probe entry for the row/balance trace. -/
def probeEntry : AmortRow × ℚ := (probeRow, 0)

/-- A continuing (non-`break`) iteration of the schedule loop never emits a
defaulted row, and emits a non-deferral row only while the exact running
balance is still positive. -/
theorem amortStep_cont_fields (C : AmortCtx) (i : ℕ) (st : AmState) (row : AmortRow)
    (st2 : AmState) (h : amortStep C i st = .cont row st2) :
    row.defaulted = false ∧ (row.isDeferred = false → 0 < st2.balance) := by
  simp only [amortStep] at h
  repeat' split at h
  all_goals
    first
    | exact AmortStep.noConfusion h
    | (simp only [AmortStep.cont.injEq] at h
       obtain ⟨hr, hs⟩ := h
       subst hr
       refine ⟨rfl, fun hd => ?_⟩
       first
       | exact Bool.noConfusion (show true = false from hd)
       | (subst hs
          exact not_le.mp (by assumption)))

/-- Every non-final trace entry comes from a continuing iteration: it is not
defaulted, and when not a deferral row its exact ending balance is positive. -/
theorem amortLoopAux_non_final (C : AmortCtx) :
    ∀ (fuel i : ℕ) (st : AmState) (j : ℕ), j + 1 < (amortLoopAux C fuel i st).length →
      ((amortLoopAux C fuel i st).getD j probeEntry).1.defaulted = false ∧
      (((amortLoopAux C fuel i st).getD j probeEntry).1.isDeferred = false →
        0 < ((amortLoopAux C fuel i st).getD j probeEntry).2) := by
  intro fuel
  induction fuel with
  | zero => intro i st j h; simp [amortLoopAux] at h
  | succ n ih =>
    intro i st j h
    rw [amortLoopAux] at h ⊢
    cases hstep : amortStep C i st with
    | stop row bal =>
      rw [hstep] at h
      exact absurd (Nat.lt_of_succ_lt_succ h) (Nat.not_lt_zero j)
    | cont row st2 =>
      rw [hstep] at h
      cases j with
      | zero => exact amortStep_cont_fields C i st row st2 hstep
      | succ k => exact ih (i + 1) st2 k (Nat.lt_of_succ_lt_succ h)

/-- Erase the fields the two post-passes of `buildAmortSchedule` modify. -/
def stripPost (r : AmortRow) : AmortRow :=
  { r with cumPrincipal := 0, cumInterest := 0, cumPayment := 0, isPaidOff := false }

/-- The cumulative pass only modifies the cumulative fields. -/
theorem addCumulatives_strip (rows : List AmortRow) :
    ∀ cp ci cpay, (addCumulatives rows cp ci cpay).map stripPost = rows.map stripPost := by
  induction rows with
  | nil => intro _ _ _; rfl
  | cons r rs ih =>
    intro cp ci cpay
    simp only [addCumulatives, List.map_cons, ih]
    rfl

/-- The paid-off fix-up only modifies the last row's `isPaidOff` flag. -/
theorem setLastPaidOff_strip (rows : List AmortRow) :
    (setLastPaidOff rows).map stripPost = rows.map stripPost := by
  unfold setLastPaidOff
  cases hlast : rows.getLast? with
  | none => rfl
  | some last =>
    have hne : rows ≠ [] := by
      intro hnil
      rw [hnil] at hlast
      simp at hlast
    conv_rhs => rw [← List.dropLast_append_getLast hne]
    rw [List.map_append, List.map_append]
    congr 1
    have hl : last = rows.getLast hne := by
      rw [List.getLast?_eq_getLast_of_ne_nil hne] at hlast
      exact (Option.some.injEq _ _ ▸ hlast).symm ▸ rfl
    subst hl
    rfl

/-- `buildAmortSchedule` agrees with the raw loop trace on every field the
post-passes do not touch. -/
theorem buildAmortSchedule_map_strip (P : PlatformEnv) (loan : Loan) :
    (buildAmortSchedule P loan).map stripPost
      = ((buildAmortTrace P loan).map Prod.fst).map stripPost := by
  unfold buildAmortSchedule
  rw [setLastPaidOff_strip, addCumulatives_strip]

/-- The post-passes preserve the schedule length. -/
theorem buildAmortSchedule_length (P : PlatformEnv) (loan : Loan) :
    (buildAmortSchedule P loan).length = (buildAmortTrace P loan).length := by
  have h := congrArg List.length (buildAmortSchedule_map_strip P loan)
  simpa using h

/-- Positional `getD` through a `map`. -/
theorem getD_map {α β : Type} (f : α → β) (l : List α) (j : ℕ) (d : α) :
    (l.map f).getD j (f d) = f (l.getD j d) := by
  induction l generalizing j with
  | nil => simp
  | cons a l ih =>
    cases j with
    | zero => simp
    | succ k => simp [ih k]

/-- Row accessed through `buildAmortSchedule` vs. through the trace, up to
the post-pass fields. -/
theorem buildAmortSchedule_getD_strip (P : PlatformEnv) (loan : Loan) (j : ℕ) :
    stripPost ((buildAmortSchedule P loan).getD j probeRow)
      = stripPost (((buildAmortTrace P loan).getD j probeEntry).1) := by
  have hp : stripPost probeRow = probeRow := rfl
  calc stripPost ((buildAmortSchedule P loan).getD j probeRow)
      = ((buildAmortSchedule P loan).map stripPost).getD j (stripPost probeRow) := by
        rw [getD_map]
    _ = (((buildAmortTrace P loan).map Prod.fst).map stripPost).getD j (stripPost probeRow) := by
        rw [buildAmortSchedule_map_strip]
    _ = stripPost (((buildAmortTrace P loan).map Prod.fst).getD j probeRow) := by
        rw [getD_map]
    _ = stripPost (((buildAmortTrace P loan).getD j probeEntry).1) := by
        rw [show probeRow = Prod.fst probeEntry from rfl, getD_map]

/-- C3 (amended): in every schedule produced by `buildAmortSchedule`, every
defaulted row is the final row, and every non-final row that is not a
deferral row leaves a positive exact running balance.  (A deferral row can
carry a zero balance without closing the schedule, and a non-deferral row's
rounded balance field can read 0 while the exact balance is a fraction of a
cent; the exact-balance trace is the faithful statement.) -/
theorem schedule_terminal_closed (P : PlatformEnv) (loan : Loan) (j : ℕ)
    (h : j + 1 < (buildAmortSchedule P loan).length) :
    ((buildAmortSchedule P loan).getD j probeRow).defaulted = false ∧
    (((buildAmortSchedule P loan).getD j probeRow).isDeferred = false →
      0 < ((buildAmortTrace P loan).getD j probeEntry).2) := by
  have hlen := buildAmortSchedule_length P loan
  have h2 : j + 1 < (buildAmortTrace P loan).length := hlen ▸ h
  have htr := amortLoopAux_non_final (buildAmortCtx P loan) (loanTotalMonths loan).toNat 0
    (initAmState loan) j (by simpa [buildAmortTrace] using h2)
  have hst := buildAmortSchedule_getD_strip P loan j
  have hdef : ((buildAmortSchedule P loan).getD j probeRow).defaulted
      = (((buildAmortTrace P loan).getD j probeEntry).1).defaulted := by
    have := congrArg AmortRow.defaulted hst
    simpa [stripPost] using this
  have hdefer : ((buildAmortSchedule P loan).getD j probeRow).isDeferred
      = (((buildAmortTrace P loan).getD j probeEntry).1).isDeferred := by
    have := congrArg AmortRow.isDeferred hst
    simpa [stripPost] using this
  rw [hdef, hdefer]
  simpa [buildAmortTrace] using htr

/-- C3 counterexample: in `loanC3`'s schedule the very first row (a deferral
month whose prepayment extinguishes the balance) has balance 0 yet is
followed by three further rows — a zero-balance row need not be final. -/
theorem schedule_zero_balance_not_final_counterexample :
    ((buildAmortSchedule testPlatform loanC3).map (·.balance)).take 2 = [0, 0] ∧
    (buildAmortSchedule testPlatform loanC3).length = 4 := by
  norm_num [buildAmortSchedule, buildAmortTrace, buildAmortCtx, loanC3, testPlatform,
    loanTotalMonths, initAmState, amortLoopAux, amortStep, applyPrepayments,
    prepayAmounts, deferralStart, findDefaultEvent, addCumulatives, setLastPaidOff,
    roundCent, round_eq, jsOrNum, jsOrStr, jsTruthyStr,
    show resolveUserForLoan loanC3 = none from rfl,
    show resolveFeeWaiverFlags testPlatform.users none loanC3
      = ⟨false, false, false⟩ from rfl,
    getMonthlyServicingRate, List.filterMap, List.foldl]

/-- Witness for `schedule_terminal_closed` at the first row of `loanC3`'s
four-row schedule. -/
theorem schedule_terminal_closed_witness :
    ((buildAmortSchedule testPlatform loanC3).getD 0 probeRow).defaulted = false ∧
    (((buildAmortSchedule testPlatform loanC3).getD 0 probeRow).isDeferred = false →
      0 < ((buildAmortTrace testPlatform loanC3).getD 0 probeEntry).2) :=
  schedule_terminal_closed testPlatform loanC3 0
    (by norm_num [buildAmortSchedule, buildAmortTrace, buildAmortCtx, loanC3, testPlatform,
      loanTotalMonths, initAmState, amortLoopAux, amortStep, applyPrepayments,
      prepayAmounts, deferralStart, findDefaultEvent, addCumulatives, setLastPaidOff,
      roundCent, round_eq, jsOrNum, jsOrStr, jsTruthyStr,
      show resolveUserForLoan loanC3 = none from rfl,
      show resolveFeeWaiverFlags testPlatform.users none loanC3
        = ⟨false, false, false⟩ from rfl,
      getMonthlyServicingRate, List.filterMap, List.foldl])

-- ======================================================================
-- Default rows (claim C7)
-- ======================================================================

/-- The terminal row emitted by the default branch of the schedule loop, as
a function of the loop constants, counter and state. -/
def defaultRowOf (C : AmortCtx) (i : ℕ) (st : AmState) : AmortRow :=
  let applied := min st.balance C.defaultRecovery
  let isOwned : Bool := decide (C.purchaseMonth ≤ st.calendarMonth)
  { monthIndex := i + 1, loanDate := st.calendarMonth
    payment := roundCent applied
    scheduledPrincipal := 0
    prepaymentPrincipal := roundCent applied
    principalPaid := roundCent applied
    prepayment := 0
    interest := 0
    balance := roundCent (st.balance - applied)
    accruedInterest := 0
    feeThisMonth := roundCent
      ((if isOwned && decide (st.calendarMonth = C.purchaseMonth) &&
            decide (C.userRole = "lender") && !C.waiveSetup then C.setupFee else 0) +
       (if isOwned && !C.waiveMonthly then st.balance * C.monthlyServicingRate else 0))
    isDeferred := false, deferralIndex := none, deferralRemaining := none
    isOwned
    ownershipDate := if isOwned then some st.calendarMonth else none
    contractualMonth := i + 1
    defaulted := true, isTerminal := true
    recovery := roundCent applied }

/-- When the current month carries the default event, the loop emits the
default row and breaks, reducing the balance only by
`min balance recoveryAmount`. -/
theorem amortStep_default (C : AmortCtx) (i : ℕ) (st : AmState)
    (hd : C.defaultMonth = some st.calendarMonth) :
    amortStep C i st
      = .stop (defaultRowOf C i st) (st.balance - min st.balance C.defaultRecovery) := by
  simp only [amortStep, defaultRowOf, hd, if_true, eq_self_iff_true, ite_true]

/-- Away from the default month, with no deferral pending or starting, the
loop takes the normal-month branch: it either breaks, or continues into a
state one month later with the same (zero) deferral counters. -/
theorem amortStep_normal (C : AmortCtx) (i : ℕ) (st : AmState)
    (hnd : ¬ C.defaultMonth = some st.calendarMonth)
    (hds : C.deferralStartMap st.calendarMonth = 0)
    (hdr : st.deferralRemaining = 0) :
    (∃ row bal, amortStep C i st = .stop row bal) ∨
    (∃ row b2, amortStep C i st = .cont row
      { balance := b2, calendarMonth := st.calendarMonth + 1
        deferralRemaining := 0, deferralTotal := st.deferralTotal }) := by
  simp only [amortStep]
  rw [if_neg hnd]
  simp only [hds, hdr, ne_eq, not_true_eq_false, and_false, if_false, ite_self,
    lt_self_iff_false]
  repeat' split
  all_goals
    first
    | exact Or.inl ⟨_, _, rfl⟩
    | exact Or.inr ⟨_, _, rfl⟩

/-- With no deferral events and the single default event dated `k` months
ahead of the current state, the loop emits at most `k + 1` rows; and when it
emits exactly `k + 1`, the last one is the default row built from the
pre-default balance `bPre` (the balance after the previous row, or the
incoming balance when the default is immediate). -/
theorem amortLoopAux_default_at (C : AmortCtx) (hds : ∀ m, C.deferralStartMap m = 0) :
    ∀ (k fuel i : ℕ) (st : AmState), st.deferralRemaining = 0 →
      C.defaultMonth = some (st.calendarMonth + (k : ℤ)) → k < fuel →
      (amortLoopAux C fuel i st).length ≤ k + 1 ∧
      ((amortLoopAux C fuel i st).length = k + 1 →
        ∃ bPre : ℚ,
          (amortLoopAux C fuel i st).getD k probeEntry
            = (defaultRowOf C (i + k)
                { st with balance := bPre, calendarMonth := st.calendarMonth + (k : ℤ) },
               bPre - min bPre C.defaultRecovery) ∧
          (k = 0 → bPre = st.balance) ∧
          ∀ k2, k = k2 + 1 → bPre = ((amortLoopAux C fuel i st).getD k2 probeEntry).2) := by
  intro k
  induction k with
  | zero =>
    intro fuel i st hdr hdm hk
    cases fuel with
    | zero => omega
    | succ n =>
      have hd : C.defaultMonth = some st.calendarMonth := by simpa using hdm
      rw [amortLoopAux, amortStep_default C i st hd]
      refine ⟨by simp, fun _ => ⟨st.balance, ?_, fun _ => rfl, fun k2 hk2 => by omega⟩⟩
      have hmz : st.calendarMonth + ((0:ℕ):ℤ) = st.calendarMonth := by push_cast; ring
      rw [hmz]
      rfl
  | succ k' ih =>
    intro fuel i st hdr hdm hk
    obtain ⟨b, m, dr, dt⟩ := st
    have hdr' : dr = 0 := hdr
    subst hdr'
    cases fuel with
    | zero => omega
    | succ n =>
      have hnd : ¬ C.defaultMonth = some m := by
        rw [hdm]
        simp only [Option.some.injEq]
        intro hc
        omega
      rw [amortLoopAux]
      rcases amortStep_normal C i ⟨b, m, 0, dt⟩ hnd (hds _) rfl
        with ⟨row, bal, hstep⟩ | ⟨row, b2, hstep⟩
      · rw [hstep]
        refine ⟨Nat.succ_le_succ (Nat.zero_le _), fun hlen => ?_⟩
        have h1 : (1:ℕ) = k' + 1 + 1 := hlen
        omega
      · rw [hstep]
        have hdm2 : C.defaultMonth = some ((m + 1) + (k' : ℤ)) := by
          rw [hdm]
          congr 1
          push_cast
          ring
        have hih := ih n (i + 1) ⟨b2, m + 1, 0, dt⟩ rfl hdm2 (by omega)
        refine ⟨Nat.succ_le_succ hih.1, fun hlen => ?_⟩
        have hlen' : (amortLoopAux C n (i + 1) ⟨b2, m + 1, 0, dt⟩).length + 1
            = k' + 1 + 1 := hlen
        obtain ⟨bPre, hentry, hzero, hsucc⟩ := hih.2 (by omega)
        refine ⟨bPre, ?_, by omega, ?_⟩
        · show (amortLoopAux C n (i + 1) ⟨b2, m + 1, 0, dt⟩).getD k' probeEntry = _
          rw [hentry]
          have harg1 : i + 1 + k' = i + (k' + 1) := by omega
          have harg2 : (m + 1) + (k' : ℤ) = m + ((k' : ℤ) + 1) := by ring
          have harg3 : ((k' + 1 : ℕ) : ℤ) = (k' : ℤ) + 1 := by push_cast; ring
          simp only [harg1, harg2, harg3]
        · intro k2 hk2
          obtain rfl : k2 = k' := by omega
          cases k2 with
          | zero => exact hzero rfl
          | succ k3 => exact hsucc k3 rfl

/-- C7 (amended): for a positive-balance loan whose only event is a
zero-recovery default dated in its 12th calendar month, `buildAmortSchedule`
(whenever the loan survives to the default month, i.e. the trace is not cut
short by an early payoff and the pre-default balance is at least half a cent)
returns exactly 12 rows whose 12th row is marked defaulted and terminal — but
that row's `balance` field is the rounded pre-default balance, which is
POSITIVE: the default branch only subtracts `min(balance, recoveryAmount)`,
so a zero recovery leaves the balance unchanged rather than zeroing it. -/
theorem schedule_default_keeps_balance (P : PlatformEnv) (loan : Loan)
    (hev : loan.events = [.defaultEv (loan.startMonth + 11) 0])
    (hfuel : 11 < (loanTotalMonths loan).toNat)
    (hlen : 12 ≤ (buildAmortTrace P loan).length)
    (hbal : 1/200 ≤ ((buildAmortTrace P loan).getD 10 probeEntry).2) :
    (buildAmortSchedule P loan).length = 12 ∧
    ((buildAmortSchedule P loan).getD 11 probeRow).defaulted = true ∧
    ((buildAmortSchedule P loan).getD 11 probeRow).isTerminal = true ∧
    ((buildAmortSchedule P loan).getD 11 probeRow).balance
      = roundCent ((buildAmortTrace P loan).getD 10 probeEntry).2 ∧
    0 < ((buildAmortSchedule P loan).getD 11 probeRow).balance := by
  have hC : (buildAmortCtx P loan).defaultMonth = some (loan.startMonth + 11) := by
    simp [buildAmortCtx, findDefaultEvent, hev]
  have hrec : (buildAmortCtx P loan).defaultRecovery = 0 := by
    simp [buildAmortCtx, findDefaultEvent, hev, jsOrNum]
  have hds : ∀ m, (buildAmortCtx P loan).deferralStartMap m = 0 := by
    intro m
    simp [buildAmortCtx, deferralStart, hev]
  have hdm : (buildAmortCtx P loan).defaultMonth
      = some ((initAmState loan).calendarMonth + ((11 : ℕ) : ℤ)) := by
    rw [hC]
    norm_num [initAmState]
  have htr : buildAmortTrace P loan
      = amortLoopAux (buildAmortCtx P loan) (loanTotalMonths loan).toNat 0
          (initAmState loan) := rfl
  have hmain := amortLoopAux_default_at (buildAmortCtx P loan) hds 11
    (loanTotalMonths loan).toNat 0 (initAmState loan) rfl hdm hfuel
  rw [← htr] at hmain
  have hlen12 : (buildAmortTrace P loan).length = 12 := le_antisymm hmain.1 hlen
  obtain ⟨bPre, hentry, -, hprev⟩ := hmain.2 hlen12
  have hbp : bPre = ((buildAmortTrace P loan).getD 10 probeEntry).2 := hprev 10 rfl
  have hbPre : 1/200 ≤ bPre := hbp ▸ hbal
  have hrow : ((buildAmortTrace P loan).getD 11 probeEntry).1
      = defaultRowOf (buildAmortCtx P loan) (0 + 11)
          { balance := bPre
            calendarMonth := (initAmState loan).calendarMonth + ((11 : ℕ) : ℤ)
            deferralRemaining := (initAmState loan).deferralRemaining
            deferralTotal := (initAmState loan).deferralTotal } := by
    rw [hentry]
  have hst := buildAmortSchedule_getD_strip P loan 11
  have hdef : ((buildAmortSchedule P loan).getD 11 probeRow).defaulted
      = (((buildAmortTrace P loan).getD 11 probeEntry).1).defaulted := by
    have := congrArg AmortRow.defaulted hst
    simpa [stripPost] using this
  have hterm : ((buildAmortSchedule P loan).getD 11 probeRow).isTerminal
      = (((buildAmortTrace P loan).getD 11 probeEntry).1).isTerminal := by
    have := congrArg AmortRow.isTerminal hst
    simpa [stripPost] using this
  have hbalf : ((buildAmortSchedule P loan).getD 11 probeRow).balance
      = (((buildAmortTrace P loan).getD 11 probeEntry).1).balance := by
    have := congrArg AmortRow.balance hst
    simpa [stripPost] using this
  have hmin : min bPre (buildAmortCtx P loan).defaultRecovery = 0 := by
    rw [hrec]
    exact min_eq_right (by linarith)
  have hdbal : (defaultRowOf (buildAmortCtx P loan) (0 + 11)
      { balance := bPre
        calendarMonth := (initAmState loan).calendarMonth + ((11 : ℕ) : ℤ)
        deferralRemaining := (initAmState loan).deferralRemaining
        deferralTotal := (initAmState loan).deferralTotal }).balance
      = roundCent bPre := by
    simp only [defaultRowOf, hmin]
    norm_num
  have hpos : 0 < roundCent bPre := by
    have h1 : (1 : ℤ) ≤ round ((100 : ℚ) * bPre) := by
      rw [round_eq]
      refine Int.le_floor.mpr ?_
      push_cast
      linarith
    have h2 : (1 : ℚ) ≤ ((round ((100 : ℚ) * bPre) : ℤ) : ℚ) := by exact_mod_cast h1
    unfold roundCent
    linarith
  refine ⟨?_, ?_, ?_, ?_, ?_⟩
  · rw [buildAmortSchedule_length, hlen12]
  · rw [hdef, hrow]
    rfl
  · rw [hterm, hrow]
    rfl
  · rw [hbalf, hrow, hdbal, hbp]
  · rw [hbalf, hrow, hdbal]
    exact hpos

/-- C7 counterexample: `loanC7` carries a zero-recovery default event in its
12th calendar month and no other event; its schedule does have exactly 12
rows with a defaulted terminal 12th row, but that row's `balance` field is
$5711.77, not 0. -/
theorem schedule_default_zero_balance_counterexample :
    (buildAmortSchedule testPlatform loanC7).length = 12 ∧
    ((buildAmortSchedule testPlatform loanC7).getD 11 probeRow).defaulted = true ∧
    ((buildAmortSchedule testPlatform loanC7).getD 11 probeRow).isTerminal = true ∧
    ((buildAmortSchedule testPlatform loanC7).getD 11 probeRow).balance = 571177/100 ∧
    (571177/100 : ℚ) ≠ 0 := by
  norm_num [buildAmortSchedule, buildAmortTrace, buildAmortCtx, loanC7, testPlatform,
    loanTotalMonths, initAmState, amortLoopAux, amortStep, applyPrepayments,
    prepayAmounts, deferralStart, findDefaultEvent, addCumulatives, setLastPaidOff,
    roundCent, round_eq, jsOrNum, jsOrStr, jsTruthyStr,
    show resolveUserForLoan loanC7 = none from rfl,
    show resolveFeeWaiverFlags testPlatform.users none loanC7
      = ⟨false, false, false⟩ from rfl,
    getMonthlyServicingRate, List.filterMap, List.foldl]

/-- Witness for `schedule_default_keeps_balance` at `loanC7`. -/
theorem schedule_default_keeps_balance_witness :
    (buildAmortSchedule testPlatform loanC7).length = 12 ∧
    ((buildAmortSchedule testPlatform loanC7).getD 11 probeRow).defaulted = true ∧
    ((buildAmortSchedule testPlatform loanC7).getD 11 probeRow).isTerminal = true ∧
    ((buildAmortSchedule testPlatform loanC7).getD 11 probeRow).balance
      = roundCent ((buildAmortTrace testPlatform loanC7).getD 10 probeEntry).2 ∧
    0 < ((buildAmortSchedule testPlatform loanC7).getD 11 probeRow).balance :=
  schedule_default_keeps_balance testPlatform loanC7 rfl
    (by norm_num [loanTotalMonths, loanC7])
    (by norm_num [buildAmortTrace, buildAmortCtx, loanC7, testPlatform,
      loanTotalMonths, initAmState, amortLoopAux, amortStep, applyPrepayments,
      prepayAmounts, deferralStart, findDefaultEvent,
      roundCent, round_eq, jsOrNum, jsOrStr, jsTruthyStr,
      show resolveUserForLoan loanC7 = none from rfl,
      show resolveFeeWaiverFlags testPlatform.users none loanC7
        = ⟨false, false, false⟩ from rfl,
      getMonthlyServicingRate, List.filterMap, List.foldl])
    (by norm_num [buildAmortTrace, buildAmortCtx, loanC7, testPlatform,
      loanTotalMonths, initAmState, amortLoopAux, amortStep, applyPrepayments,
      prepayAmounts, deferralStart, findDefaultEvent,
      roundCent, round_eq, jsOrNum, jsOrStr, jsTruthyStr,
      show resolveUserForLoan loanC7 = none from rfl,
      show resolveFeeWaiverFlags testPlatform.users none loanC7
        = ⟨false, false, false⟩ from rfl,
      getMonthlyServicingRate, List.filterMap, List.foldl])

-- ======================================================================
-- Discount-rate formula (claim C6)
-- ======================================================================

/-- C6 (amended): on the pricing path (valid loan, curves loaded, positive
current balance and remaining term, all curve sub-records present), the
discount rate returned by `valueLoan` equals the effective base risk-free
rate — `assumptions.baseRiskFreeRate/100` when the profile sets it, otherwise
the `riskFreeRate` argument — plus `min(totalRiskBps, 500)/10000`, and the
added premium never exceeds 500 bps (0.05).  The zero-balance early return,
by contrast, reports the raw `riskFreeRate` argument with no premium and no
profile override (see the counterexample). -/
theorem valueLoan_discountRate (R : Root12) (E : ValuationEnv)
    (riskTiers : String → Option RiskCurve) (loan : Loan) (borrower : Borrower)
    (riskFreeRate : ℚ) (profile : Profile) (bd : RiskBreakdown)
    (hvalid : ¬ (loan.principal ≤ 0 ∨ loan.nominalRate ≤ 0 ∨ originalTermMonthsOf loan ≤ 0))
    (hcurves : E.curves = some riskTiers)
    (hbal : ¬ (currentBalanceOf E loan ≤ 0 ∨ max (remainingTermMonths E loan) 1 ≤ 0))
    (hbd : riskBreakdownOf E profile.assumptions borrower
        (jsOrStr (some (deriveRiskTier borrower)) "HIGH")
        ((riskTiers (jsOrStr (some (deriveRiskTier borrower)) "HIGH")).getD fallbackCurve)
        = .ok bd)
    (hdc : ((riskTiers (jsOrStr (some (deriveRiskTier borrower)) "HIGH")).getD
        fallbackCurve).defaultCurve ≠ none)
    (hpc : ((riskTiers (jsOrStr (some (deriveRiskTier borrower)) "HIGH")).getD
        fallbackCurve).prepaymentCurve ≠ none)
    (hrv : ((riskTiers (jsOrStr (some (deriveRiskTier borrower)) "HIGH")).getD
        fallbackCurve).recovery ≠ none) :
    (valueLoan R E loan borrower riskFreeRate profile).map (·.discountRate)
      = .ok (some (profile.assumptions.baseRiskFreeRate.getD (riskFreeRate * 100) / 100
          + min bd.totalRiskBps 500 / 10000)) ∧
    min bd.totalRiskBps 500 / 10000 ≤ 1/20 := by
  obtain ⟨cumDef, hdc'⟩ := Option.ne_none_iff_exists'.mp hdc
  obtain ⟨cprVals, hpc'⟩ := Option.ne_none_iff_exists'.mp hpc
  obtain ⟨recInfo, hrv'⟩ := Option.ne_none_iff_exists'.mp hrv
  constructor
  · simp only [valueLoan, hcurves]
    rw [if_neg hvalid, if_neg hbal]
    simp only [valueLoanPriced]
    rw [hbd, hdc', hpc', hrv']
    rfl
  · have h := min_le_right bd.totalRiskBps 500
    linarith

set_option maxHeartbeats 2000000 in
/-- C6 counterexample: `loanC6` is a valid loan (positive principal, rate and
term) whose balance is fully prepaid in its first month, so `valueLoan` takes
the zero-balance early return and reports the raw `riskFreeRate` argument
(0.04) as the discount rate; the claimed formula — effective base risk-free
rate plus the capped risk premium — evaluates to 0.0925 for the same inputs. -/
theorem valueLoan_zero_balance_discount_counterexample :
    (valueLoan idRoot12 sampleValEnv loanC6 borrowerC6 (1/25) sampleProfile).map
        (·.discountRate) = .ok (some (1/25)) ∧
    (riskBreakdownOf sampleValEnv sampleProfile.assumptions borrowerC6
        (jsOrStr (some (deriveRiskTier borrowerC6)) "HIGH")
        ((sampleCurves (jsOrStr (some (deriveRiskTier borrowerC6)) "HIGH")).getD
          fallbackCurve)).map
        (fun bd => sampleProfile.assumptions.baseRiskFreeRate.getD ((1/25) * 100) / 100
          + min bd.totalRiskBps 500 / 10000) = .ok (37/400) ∧
    ((1 : ℚ)/25) ≠ 37/400 := by
  have hrt : deriveRiskTier borrowerC6 = "MEDIUM" := by
    norm_num +decide [deriveRiskTier, deriveFicoBand, borrowerC6, jsOrInt, parseIntJS,
      jsNumberOfString, toUpperStr, upperChar, jsTruthyNum, trimStr, isSpaceChar]
  refine ⟨?_, ?_, by norm_num⟩
  · norm_num [valueLoan, currentBalanceOf, currentRowIndex, findLastIdx,
      remainingTermMonths, originalTermMonthsOf, zeroValuation,
      buildAmortSchedule, buildAmortTrace, buildAmortCtx, loanC6, sampleValEnv,
      testPlatform, loanTotalMonths, initAmState, amortLoopAux, amortStep,
      applyPrepayments, prepayAmounts, deferralStart, findDefaultEvent,
      addCumulatives, setLastPaidOff, roundCent, round_eq, jsOrNum, jsOrStr,
      jsTruthyStr,
      show resolveUserForLoan loanC6 = none from rfl,
      show resolveFeeWaiverFlags testPlatform.users none loanC6
        = ⟨false, false, false⟩ from rfl,
      getMonthlyServicingRate, List.filterMap, List.foldl, Except.map]
  · norm_num +decide [riskBreakdownOf, hrt, sampleValEnv, sampleProfile,
      sampleAssumptions, sampleCurves, mediumCurve, fallbackCurve, getSchoolTier,
      getSchoolAdjBps, yearInSchoolKey, jsOrStr, jsTruthyStr, jsTruthyNum, jsOrNum,
      show borrowerC6.borrowerFico = some 730 from rfl,
      show borrowerC6.cosignerFico = none from rfl,
      show borrowerC6.degreeType = none from rfl,
      show borrowerC6.school = none from rfl,
      show borrowerC6.opeid = none from rfl,
      show borrowerC6.yearInSchool = none from rfl,
      show borrowerC6.isGraduateStudent = false from rfl,
      Except.map]

set_option maxHeartbeats 4000000 in
/-- Witness for `valueLoan_discountRate` at `loanC4` (a valid, still-running
loan) under the sample environment and borrower. -/
theorem valueLoan_discountRate_witness :
    (valueLoan idRoot12 sampleValEnv loanC4 borrowerC6 (1/25) sampleProfile).map
        (·.discountRate)
      = .ok (some (sampleProfile.assumptions.baseRiskFreeRate.getD ((1/25) * 100) / 100
          + min (525 : ℚ) 500 / 10000)) ∧
    min (525 : ℚ) 500 / 10000 ≤ 1/20 := by
  have hrt : deriveRiskTier borrowerC6 = "MEDIUM" := by
    norm_num +decide [deriveRiskTier, deriveFicoBand, borrowerC6, jsOrInt, parseIntJS,
      jsNumberOfString, toUpperStr, upperChar, jsTruthyNum, trimStr, isSpaceChar]
  have hctx : buildAmortCtx testPlatform loanC4
      = { monthlyRate := 349/120000, graceMonths := 0, startMonth := 24240
          purchaseMonth := 24240
          originalMonthlyPayment :=
            10000 * (349/120000) / (1 - (1 + 349/120000) ^ (-(12 : ℤ)))
          prepayMap := prepayAmounts [], deferralStartMap := deferralStart []
          defaultMonth := none, defaultRecovery := 0, userRole := "investor"
          waiveSetup := false, waiveMonthly := false, setupFee := 150
          monthlyServicingRate := 25/10000 } := by
    norm_num +decide [buildAmortCtx, loanC4, testPlatform, resolveUserForLoan,
      resolveFeeWaiverFlags, getUserFeeWaiver, getMonthlyServicingRate, jsOrStr,
      jsTruthyStr, jsOrNum, prepayAmounts, deferralStart, findDefaultEvent,
      toLowerStr, lowerChar, replacePlus, splitUnderscore, splitOnChar]
  have hcb : currentBalanceOf sampleValEnv loanC4 = 917991/100 := by
    norm_num +decide [currentBalanceOf, currentRowIndex, findLastIdx,
      buildAmortSchedule, buildAmortTrace, hctx, sampleValEnv,
      loanTotalMonths, amortLoopAux, amortStep,
      applyPrepayments, prepayAmounts, deferralStart,
      addCumulatives, setLastPaidOff, roundCent, round_eq, jsOrNum,
      show loanTotalMonths loanC4 = 12 from by norm_num [loanTotalMonths, loanC4],
      show initAmState loanC4 = ⟨10000, 24240, 0, 0⟩ from rfl,
      List.filterMap, List.foldl, List.enum, List.enumFrom, List.filter,
      List.getLast?, List.getLast, List.find?, Option.map]
  have hrm : remainingTermMonths sampleValEnv loanC4 = 11 := by
    norm_num +decide [remainingTermMonths, currentRowIndex, findLastIdx,
      buildAmortSchedule, buildAmortTrace, hctx, sampleValEnv,
      loanTotalMonths, amortLoopAux, amortStep,
      applyPrepayments, prepayAmounts, deferralStart,
      addCumulatives, setLastPaidOff, roundCent, round_eq, jsOrNum,
      show loanTotalMonths loanC4 = 12 from by norm_num [loanTotalMonths, loanC4],
      show initAmState loanC4 = ⟨10000, 24240, 0, 0⟩ from rfl,
      List.filterMap, List.foldl, List.enum, List.enumFrom, List.filter,
      List.getLast?, List.getLast, List.find?, Option.map]
  exact valueLoan_discountRate idRoot12 sampleValEnv sampleCurves loanC4 borrowerC6
    (1/25) sampleProfile
    { baseRiskBps := 350, degreeAdj := 0, schoolAdj := 125, yearAdj := 0, gradAdj := 0
      ficoAdj := 50, totalRiskBps := 525, schoolTier := "Tier 3" }
    (by norm_num [loanC4, originalTermMonthsOf])
    rfl
    (by
      rw [hcb, hrm]
      norm_num)
    (by
      norm_num +decide [riskBreakdownOf, hrt, sampleValEnv, sampleProfile,
        sampleAssumptions, sampleCurves, mediumCurve, fallbackCurve, getSchoolTier,
        getSchoolAdjBps, yearInSchoolKey, jsOrStr, jsTruthyStr, jsTruthyNum, jsOrNum,
        show borrowerC6.borrowerFico = some 730 from rfl,
        show borrowerC6.cosignerFico = none from rfl,
        show borrowerC6.degreeType = none from rfl,
        show borrowerC6.school = none from rfl,
        show borrowerC6.opeid = none from rfl,
        show borrowerC6.yearInSchool = none from rfl,
        show borrowerC6.isGraduateStudent = false from rfl])
    (by norm_num +decide [hrt, sampleCurves, mediumCurve, jsOrStr, jsTruthyStr])
    (by norm_num +decide [hrt, sampleCurves, mediumCurve, jsOrStr, jsTruthyStr])
    (by norm_num +decide [hrt, sampleCurves, mediumCurve, jsOrStr, jsTruthyStr])

-- ======================================================================
-- Portfolio aggregation of failed valuations (claim C1)
-- ======================================================================

set_option maxHeartbeats 4000000 in
/-- C1: `computePortfolioValuation` does not shield its aggregate sums from a
failed per-loan valuation.  A loan that yields the sentinel "unvalued" result
(here: a zero-principal loan fully owned by the current user) carries
`npv = NaN`; the aggregation loop adds `displayNPV` into `totalNPV` with no
finiteness guard, so the portfolio's `totalNPV` is `NaN` — the failed loan
does not contribute zero, it poisons the total. -/
theorem portfolio_nan_propagates :
    (computePortfolioValuation idRoot12 samplePortEnv [zeroPrincipalLoan] "jeff"
        "portfolio" sampleProfile (1/25)).map
        (fun r => (r.totalNPV, r.valuedLoans.map (·.displayNPV),
          r.valuedLoans.map (·.valuation.npv))) = .ok (none, [none], [none]) := by
  norm_num +decide [computePortfolioValuation, portfolioLoanEntry,
    getUserOwnershipPct, toLowerStr, lowerChar, trimStr, isSpaceChar,
    getEffectiveBorrower, emptyBorrower, samplePortEnv, sampleValEnv,
    zeroPrincipalLoan, valueLoan, unvaluedResult, originalTermMonthsOf,
    jMul, jAdd, List.filter, List.mapM, List.mapM.loop, Except.map,
    buildAmortSchedule, buildAmortTrace, buildAmortCtx, testPlatform,
    loanTotalMonths, initAmState, amortLoopAux, amortStep, applyPrepayments,
    prepayAmounts, deferralStart, findDefaultEvent, addCumulatives,
    setLastPaidOff, roundCent, round_eq, jsOrNum, jsOrStr, jsTruthyStr,
    getUserFeeWaiver, resolveUserForLoan, resolveFeeWaiverFlags,
    getMonthlyServicingRate, replacePlus, splitUnderscore, splitOnChar,
    findLastIdx, List.filterMap, List.foldl, List.enum, List.enumFrom,
    List.getLast?, List.getLast, List.find?, Option.map]

-- ======================================================================
-- Scheduled-principal sum (claim C4)
-- ======================================================================

/-- The closed-form remaining balance of a level-payment annuity after `k`
of `n` months: `pay * (1 - (1+r)^(k-n)) / r`.  It satisfies the loop's exact
balance recurrence `b ↦ (1+r)*b - pay` and starts at the principal when `pay`
is the source's payment formula. -/
def annuityBalance (pay r : ℚ) (n k : ℕ) : ℚ :=
  pay * (1 - (1 + r) ^ ((k : ℤ) - (n : ℤ))) / r

/-- One exact repayment month maps `annuityBalance k` to `annuityBalance (k+1)`. -/
theorem annuityBalance_rec (pay r : ℚ) (hr : r ≠ 0) (hr1 : (1 : ℚ) + r ≠ 0) (n k : ℕ) :
    annuityBalance pay r n (k + 1) = (1 + r) * annuityBalance pay r n k - pay := by
  unfold annuityBalance
  have hz : ((k + 1 : ℕ) : ℤ) - (n : ℤ) = ((k : ℤ) - (n : ℤ)) + 1 := by push_cast; ring
  rw [hz, zpow_add_one₀ hr1]
  field_simp
  ring

/-- The annuity is exactly extinguished after its full term. -/
theorem annuityBalance_self (pay r : ℚ) (n : ℕ) : annuityBalance pay r n n = 0 := by
  unfold annuityBalance
  rw [sub_self, zpow_zero, sub_self, mul_zero, zero_div]

/-- The closed-form balance stays nonnegative through the term. -/
theorem annuityBalance_nonneg (pay r : ℚ) (hp : 0 ≤ pay) (hr : 0 < r) (n k : ℕ)
    (hk : k ≤ n) : 0 ≤ annuityBalance pay r n k := by
  unfold annuityBalance
  have h1 : (1 : ℚ) < 1 + r := by linarith
  have hle : (1 + r) ^ ((k : ℤ) - (n : ℤ)) ≤ 1 := by
    apply zpow_le_one_of_nonpos₀ (le_of_lt h1)
    omega
  have : 0 ≤ 1 - (1 + r) ^ ((k : ℤ) - (n : ℤ)) := by linarith
  positivity

/-- With the source's level-payment formula the closed-form balance starts at
the principal. -/
theorem annuityBalance_zero (P r : ℚ) (hr : 0 < r) (n : ℕ) (hn : 0 < n) :
    annuityBalance (P * r / (1 - (1 + r) ^ (-(n : ℤ)))) r n 0 = P := by
  unfold annuityBalance
  have h1 : (1 : ℚ) < 1 + r := by linarith
  have hlt : (1 + r) ^ (-(n : ℤ)) < 1 := by
    apply zpow_lt_one_of_neg₀ h1
    omega
  have hne : 1 - (1 + r) ^ (-(n : ℤ)) ≠ 0 := by linarith
  have hz : ((0 : ℕ) : ℤ) - (n : ℤ) = -(n : ℤ) := by omega
  rw [hz]
  have hpow : (1 : ℚ) < (1 + r) ^ n := one_lt_pow₀ h1 (by omega)
  have hD : ((1 + r) ^ n - 1) * (1 + r) ^ n * r ≠ 0 := by
    have : (0 : ℚ) < (1 + r) ^ n := by positivity
    have h2 : (0 : ℚ) < (1 + r) ^ n - 1 := by linarith
    positivity
  field_simp
  ring


/-- Cent rounding moves a value by at most half a cent. -/
theorem roundCent_err (x : ℚ) : |roundCent x - x| ≤ 1/200 := by
  unfold roundCent
  have h := abs_sub_round (100 * x)
  have h2 : |(round (100 * x) : ℚ) - 100 * x| ≤ 1/2 := by
    rw [abs_sub_comm]
    exact h
  have heq : (round (100 * x) : ℚ) / 100 - x = ((round (100 * x) : ℚ) - 100 * x) / 100 := by
    ring
  rw [heq, abs_div, abs_of_pos (by norm_num : (0 : ℚ) < 100),
    div_le_iff₀ (by norm_num : (0 : ℚ) < 100)]
  linarith

/-- A plain repayment month (no default, no deferral, no prepayments, grace
over, payment within balance): the loop either stops on the `≤ $0.01`
threshold with exact final balance 0, or continues with the exact annuity
balance; either way the row's `scheduledPrincipal` field is the cent-rounded
exact scheduled principal `pay - balance*rate`. -/
theorem amortStep_plain (C : AmortCtx) (i : ℕ) (st : AmState)
    (hnd : C.defaultMonth = none)
    (hds : C.deferralStartMap st.calendarMonth = 0)
    (hpp : C.prepayMap st.calendarMonth = [])
    (hg0 : C.graceMonths = 0)
    (hcal : C.startMonth ≤ st.calendarMonth)
    (hdr : st.deferralRemaining = 0)
    (hsp : C.originalMonthlyPayment - st.balance * C.monthlyRate ≤ st.balance)
    (hb2 : 0 ≤ st.balance - (C.originalMonthlyPayment - st.balance * C.monthlyRate)) :
    (st.balance - (C.originalMonthlyPayment - st.balance * C.monthlyRate) ≤ 1/100 ∧
      ∃ row, amortStep C i st = .stop row 0 ∧
        row.scheduledPrincipal
          = roundCent (C.originalMonthlyPayment - st.balance * C.monthlyRate)) ∨
    (1/100 < st.balance - (C.originalMonthlyPayment - st.balance * C.monthlyRate) ∧
      ∃ row, amortStep C i st = .cont row
          { balance := st.balance - (C.originalMonthlyPayment - st.balance * C.monthlyRate)
            calendarMonth := st.calendarMonth + 1
            deferralRemaining := 0, deferralTotal := st.deferralTotal } ∧
        row.scheduledPrincipal
          = roundCent (C.originalMonthlyPayment - st.balance * C.monthlyRate)) := by
  have hgx : ¬ (st.calendarMonth - C.startMonth < C.graceMonths) := by omega
  have hgd : decide (st.calendarMonth - C.startMonth < C.graceMonths) = false :=
    decide_eq_false hgx
  have hmin := min_eq_left hsp
  have hmax := max_eq_right hb2
  by_cases hth : st.balance - (C.originalMonthlyPayment - st.balance * C.monthlyRate) ≤ 1/100
  · refine Or.inl ⟨hth, ?_⟩
    simp only [amortStep, hnd, hds, hdr, hpp, reduceCtorEq, if_false, ne_eq,
      eq_self_iff_true, not_true_eq_false, and_false, lt_self_iff_false, hgd,
      Bool.false_eq_true, hmin, hmax, if_pos hth, applyPrepayments, List.foldl,
      le_refl, if_true]
    exact ⟨_, rfl, rfl⟩
  · have hb0 : ¬ (st.balance - (C.originalMonthlyPayment - st.balance * C.monthlyRate) ≤ 0) := by
      push_neg at hth ⊢
      linarith
    refine Or.inr ⟨not_le.mp hth, ?_⟩
    simp only [amortStep, hnd, hds, hdr, hpp, reduceCtorEq, if_false, ne_eq,
      eq_self_iff_true, not_true_eq_false, and_false, lt_self_iff_false, hgd,
      Bool.false_eq_true, hmin, hmax, if_neg hth, if_neg hb0, applyPrepayments,
      List.foldl]
    exact ⟨_, rfl, rfl⟩


/-- Running the loop from the exact closed-form balance after `k` months, the
sum of the rounded `scheduledPrincipal` fields differs from the remaining
exact balance by at most half a cent per emitted row, up to the final
sub-cent residual `res ∈ [0, $0.01]` swallowed by the threshold clamp. -/
theorem amortLoopAux_annuity (C : AmortCtx)
    (hnd : C.defaultMonth = none)
    (hds : ∀ m, C.deferralStartMap m = 0)
    (hpp : ∀ m, C.prepayMap m = [])
    (hg0 : C.graceMonths = 0)
    (hr : 0 < C.monthlyRate)
    (hpay : 0 ≤ C.originalMonthlyPayment)
    (n : ℕ) :
    ∀ (fuel k i : ℕ) (st : AmState), k < n → n ≤ k + fuel →
      st.balance = annuityBalance C.originalMonthlyPayment C.monthlyRate n k →
      st.deferralRemaining = 0 → C.startMonth ≤ st.calendarMonth →
      ∃ res : ℚ, 0 ≤ res ∧ res ≤ 1/100 ∧
        |((amortLoopAux C fuel i st).map (fun e => e.1.scheduledPrincipal)).sum
          - (annuityBalance C.originalMonthlyPayment C.monthlyRate n k - res)|
          ≤ ((amortLoopAux C fuel i st).length : ℚ) / 200 := by
  intro fuel
  induction fuel with
  | zero =>
    intro k i st hk hfuel hbal hdr hcal
    omega
  | succ m ih =>
    intro k i st hk hfuel hbal hdr hcal
    have h1r : (1 : ℚ) + C.monthlyRate ≠ 0 := by positivity
    have hrec := annuityBalance_rec C.originalMonthlyPayment C.monthlyRate
      (ne_of_gt hr) h1r n k
    have hsub : st.balance - (C.originalMonthlyPayment - st.balance * C.monthlyRate)
        = annuityBalance C.originalMonthlyPayment C.monthlyRate n (k + 1) := by
      rw [hbal, hrec]
      ring
    have hnext_nonneg :
        0 ≤ annuityBalance C.originalMonthlyPayment C.monthlyRate n (k + 1) :=
      annuityBalance_nonneg _ _ hpay hr n (k + 1) (by omega)
    have hsp : C.originalMonthlyPayment - st.balance * C.monthlyRate ≤ st.balance := by
      nlinarith [hsub, hnext_nonneg]
    have hb2 : 0 ≤ st.balance - (C.originalMonthlyPayment - st.balance * C.monthlyRate) := by
      rw [hsub]
      exact hnext_nonneg
    have herr := roundCent_err (C.originalMonthlyPayment - st.balance * C.monthlyRate)
    have hpainp : annuityBalance C.originalMonthlyPayment C.monthlyRate n k
        - annuityBalance C.originalMonthlyPayment C.monthlyRate n (k + 1)
        = C.originalMonthlyPayment - st.balance * C.monthlyRate := by
      rw [← hsub, hbal]
      ring
    rcases amortStep_plain C i st hnd (hds _) (hpp _) hg0 hcal hdr hsp hb2 with
      ⟨hth, row, hstep, hspf⟩ | ⟨hth, row, hstep, hspf⟩
    · rw [amortLoopAux, hstep]
      refine ⟨annuityBalance C.originalMonthlyPayment C.monthlyRate n (k + 1),
        hnext_nonneg, by rw [← hsub]; exact hth, ?_⟩
      simp only [List.map_cons, List.map_nil, List.sum_cons, List.sum_nil,
        List.length_cons, List.length_nil, hspf]
      have hinner :
          roundCent (C.originalMonthlyPayment - st.balance * C.monthlyRate) + 0
            - (annuityBalance C.originalMonthlyPayment C.monthlyRate n k
              - annuityBalance C.originalMonthlyPayment C.monthlyRate n (k + 1))
          = roundCent (C.originalMonthlyPayment - st.balance * C.monthlyRate)
            - (C.originalMonthlyPayment - st.balance * C.monthlyRate) := by
        rw [hpainp]
        ring
      rw [hinner]
      push_cast
      linarith
    · set st2 : AmState :=
        { balance := st.balance - (C.originalMonthlyPayment - st.balance * C.monthlyRate)
          calendarMonth := st.calendarMonth + 1
          deferralRemaining := 0, deferralTotal := st.deferralTotal } with hst2def
      have hk1 : k + 1 < n := by
        rcases Nat.lt_or_ge (k + 1) n with h | h
        · exact h
        · exfalso
          have hkn : k + 1 = n := by omega
          have h0 : st.balance - (C.originalMonthlyPayment - st.balance * C.monthlyRate)
              = 0 := by
            rw [hsub, hkn, annuityBalance_self]
          linarith
      have hb2' : st2.balance = annuityBalance C.originalMonthlyPayment C.monthlyRate n
          (k + 1) := hsub
      have hih := ih (k + 1) (i + 1) st2 hk1 (by omega) hb2' rfl
        (by
          show C.startMonth ≤ st.calendarMonth + 1
          omega)
      obtain ⟨res, hres0, hres1, hbound⟩ := hih
      rw [amortLoopAux, hstep]
      refine ⟨res, hres0, hres1, ?_⟩
      simp only [List.map_cons, List.sum_cons, List.length_cons, hspf]
      have habs := abs_add
        (roundCent (C.originalMonthlyPayment - st.balance * C.monthlyRate)
          - (C.originalMonthlyPayment - st.balance * C.monthlyRate))
        (((amortLoopAux C m (i + 1) st2).map (fun e => e.1.scheduledPrincipal)).sum
          - (annuityBalance C.originalMonthlyPayment C.monthlyRate n (k + 1) - res))
      have hsplit :
          roundCent (C.originalMonthlyPayment - st.balance * C.monthlyRate)
            + ((amortLoopAux C m (i + 1) st2).map (fun e => e.1.scheduledPrincipal)).sum
            - (annuityBalance C.originalMonthlyPayment C.monthlyRate n k - res)
          = (roundCent (C.originalMonthlyPayment - st.balance * C.monthlyRate)
              - (C.originalMonthlyPayment - st.balance * C.monthlyRate))
            + (((amortLoopAux C m (i + 1) st2).map (fun e => e.1.scheduledPrincipal)).sum
              - (annuityBalance C.originalMonthlyPayment C.monthlyRate n (k + 1) - res)) := by
        have hck : annuityBalance C.originalMonthlyPayment C.monthlyRate n k
            = (C.originalMonthlyPayment - st.balance * C.monthlyRate)
              + annuityBalance C.originalMonthlyPayment C.monthlyRate n (k + 1) := by
          rw [← hpainp]
          ring
        rw [hck]
        ring
      rw [hsplit]
      push_cast
      calc |(roundCent (C.originalMonthlyPayment - st.balance * C.monthlyRate)
              - (C.originalMonthlyPayment - st.balance * C.monthlyRate))
            + (((amortLoopAux C m (i + 1) st2).map (fun e => e.1.scheduledPrincipal)).sum
              - (annuityBalance C.originalMonthlyPayment C.monthlyRate n (k + 1) - res))|
          ≤ _ := habs
        _ ≤ ((amortLoopAux C m (i + 1) st2).length : ℚ) / 200 + 1 / 200 := by linarith
        _ = (((amortLoopAux C m (i + 1) st2).length : ℚ) + 1) / 200 := by ring


/-- C4 (amended): for every loan with positive principal, positive nominal
rate, term of at least a year, no grace period and an empty event list, the
sum of the `scheduledPrincipal` fields of `buildAmortSchedule` differs from
the original principal by at most half a cent per row plus one cent (the
`≤ $0.01` terminal threshold).  The original ±$0.01 bound fails: each row's
field is rounded to cents independently, so the drift grows with the row
count (already 2 cents for a 12-month loan). -/
theorem schedule_principal_sum (P : PlatformEnv) (loan : Loan)
    (hP : 0 < loan.principal) (hr : 0 < loan.nominalRate)
    (hterm : 1 ≤ loan.termYears) (hgrace : loan.graceYears = 0)
    (hev : loan.events = []) :
    |((buildAmortSchedule P loan).map (·.scheduledPrincipal)).sum - loan.principal|
      ≤ ((buildAmortSchedule P loan).length : ℚ) / 200 + 1/100 := by
  have hnd : (buildAmortCtx P loan).defaultMonth = none := by
    simp [buildAmortCtx, findDefaultEvent, hev]
  have hds : ∀ m, (buildAmortCtx P loan).deferralStartMap m = 0 := by
    intro m
    simp [buildAmortCtx, deferralStart, hev]
  have hpp : ∀ m, (buildAmortCtx P loan).prepayMap m = [] := by
    intro m
    simp [buildAmortCtx, prepayAmounts, hev]
  have hg0 : (buildAmortCtx P loan).graceMonths = 0 := by
    simp [buildAmortCtx, hgrace]
  have hrC : (buildAmortCtx P loan).monthlyRate = loan.nominalRate / 12 := rfl
  have hrpos : 0 < (buildAmortCtx P loan).monthlyRate := by
    rw [hrC]
    positivity
  have h1r : (1 : ℚ) < 1 + loan.nominalRate / 12 := by
    have : 0 < loan.nominalRate / 12 := by positivity
    linarith
  have hpayC : (buildAmortCtx P loan).originalMonthlyPayment
      = loan.principal * (loan.nominalRate / 12)
        / (1 - (1 + loan.nominalRate / 12) ^ (-(loan.termYears * 12))) := by
    simp only [buildAmortCtx]
    rw [if_pos (by omega : (0 : ℤ) < loan.termYears * 12)]
  have hzlt : (1 + loan.nominalRate / 12) ^ (-(loan.termYears * 12)) < 1 := by
    apply zpow_lt_one_of_neg₀ h1r
    omega
  have hpaypos : 0 < (buildAmortCtx P loan).originalMonthlyPayment := by
    rw [hpayC]
    have hden : 0 < 1 - (1 + loan.nominalRate / 12) ^ (-(loan.termYears * 12)) := by
      linarith
    positivity
  have hn : ((loan.termYears * 12).toNat : ℤ) = loan.termYears * 12 :=
    Int.toNat_of_nonneg (by omega)
  have hnpos : 0 < (loan.termYears * 12).toNat := by omega
  have hbal0 : loan.principal
      = annuityBalance (buildAmortCtx P loan).originalMonthlyPayment
          (buildAmortCtx P loan).monthlyRate (loan.termYears * 12).toNat 0 := by
    rw [hrC]
    have hz := annuityBalance_zero loan.principal (loan.nominalRate / 12)
      (by positivity) (loan.termYears * 12).toNat hnpos
    rw [← hz]
    congr 1
    rw [hpayC, hn]
  have hfuel : (loanTotalMonths loan).toNat = (loan.termYears * 12).toNat := by
    unfold loanTotalMonths
    rw [hgrace]
    norm_num
  have hsm : (buildAmortCtx P loan).startMonth = loan.startMonth := rfl
  have hmain := amortLoopAux_annuity (buildAmortCtx P loan) hnd hds hpp hg0 hrpos
    (le_of_lt hpaypos) (loan.termYears * 12).toNat (loanTotalMonths loan).toNat 0 0
    (initAmState loan) hnpos (by omega) (by
      show loan.principal = _
      exact hbal0) rfl (by
      show (buildAmortCtx P loan).startMonth ≤ loan.startMonth
      rw [hsm])
  obtain ⟨res, hres0, hres1, hbound⟩ := hmain
  have htr : buildAmortTrace P loan
      = amortLoopAux (buildAmortCtx P loan) (loanTotalMonths loan).toNat 0
          (initAmState loan) := rfl
  rw [← htr] at hbound
  have hmapeq : (buildAmortSchedule P loan).map (·.scheduledPrincipal)
      = (buildAmortTrace P loan).map (fun e => e.1.scheduledPrincipal) := by
    have h1 : (buildAmortSchedule P loan).map (·.scheduledPrincipal)
        = ((buildAmortSchedule P loan).map stripPost).map (·.scheduledPrincipal) := by
      rw [List.map_map]
      rfl
    rw [h1, buildAmortSchedule_map_strip, List.map_map, List.map_map]
    rfl
  have hleneq : ((buildAmortSchedule P loan).length : ℚ)
      = ((buildAmortTrace P loan).length : ℚ) := by
    rw [buildAmortSchedule_length]
  rw [hmapeq, hleneq]
  rw [← hbal0] at hbound
  calc |((buildAmortTrace P loan).map (fun e => e.1.scheduledPrincipal)).sum
        - loan.principal|
      = |(((buildAmortTrace P loan).map (fun e => e.1.scheduledPrincipal)).sum
          - (loan.principal - res)) + (- res)| := by
        congr 1
        ring
    _ ≤ |((buildAmortTrace P loan).map (fun e => e.1.scheduledPrincipal)).sum
          - (loan.principal - res)| + |(- res)| := abs_add _ _
    _ ≤ ((buildAmortTrace P loan).length : ℚ) / 200 + 1/100 := by
        have : |(-res)| = res := by
          rw [abs_neg, abs_of_nonneg hres0]
        rw [this]
        linarith


set_option maxHeartbeats 4000000 in
/-- C4 counterexample: `loanC4` ($10,000 at 3.49% for 12 months, no events)
has scheduled-principal fields summing to $9,999.98 — two cents short of the
principal, outside the claimed ±$0.01. -/
theorem schedule_principal_sum_counterexample :
    ((buildAmortSchedule testPlatform loanC4).map (·.scheduledPrincipal)).sum
      = 499999/50 ∧
    ¬ |(499999/50 : ℚ) - 10000| ≤ 1/100 := by
  constructor
  · have hctx : buildAmortCtx testPlatform loanC4
        = { monthlyRate := 349/120000, graceMonths := 0, startMonth := 24240
            purchaseMonth := 24240
            originalMonthlyPayment :=
              10000 * (349/120000) / (1 - (1 + 349/120000) ^ (-(12 : ℤ)))
            prepayMap := prepayAmounts [], deferralStartMap := deferralStart []
            defaultMonth := none, defaultRecovery := 0, userRole := "investor"
            waiveSetup := false, waiveMonthly := false, setupFee := 150
            monthlyServicingRate := 25/10000 } := by
      norm_num +decide [buildAmortCtx, loanC4, testPlatform, resolveUserForLoan,
        resolveFeeWaiverFlags, getUserFeeWaiver, getMonthlyServicingRate, jsOrStr,
        jsTruthyStr, jsOrNum, prepayAmounts, deferralStart, findDefaultEvent,
        toLowerStr, lowerChar, replacePlus, splitUnderscore, splitOnChar]
    norm_num +decide [buildAmortSchedule, buildAmortTrace, hctx,
      loanTotalMonths, amortLoopAux, amortStep,
      applyPrepayments, prepayAmounts, deferralStart,
      addCumulatives, setLastPaidOff, roundCent, round_eq, jsOrNum,
      show loanTotalMonths loanC4 = 12 from by norm_num [loanTotalMonths, loanC4],
      show initAmState loanC4 = ⟨10000, 24240, 0, 0⟩ from rfl,
      List.filterMap, List.foldl]
  · rw [show (499999/50 : ℚ) - 10000 = -(1/50) from by norm_num, abs_neg,
      abs_of_nonneg (by norm_num : (0 : ℚ) ≤ 1/50)]
    norm_num

/-- Witness for `schedule_principal_sum` at `loanC4`. -/
theorem schedule_principal_sum_witness :
    |((buildAmortSchedule testPlatform loanC4).map (·.scheduledPrincipal)).sum
        - loanC4.principal|
      ≤ ((buildAmortSchedule testPlatform loanC4).length : ℚ) / 200 + 1/100 :=
  schedule_principal_sum testPlatform loanC4 (by norm_num [loanC4])
    (by norm_num [loanC4]) (by norm_num [loanC4]) (by norm_num [loanC4]) rfl


end LoanReport
